import Mathlib

/-!
Verification development for the inventory reconciliation engine
(`src/services/{loader,normalizer,quality_checker,reconciler,reporter}.py`).

Shallow embedding conventions:
- Python strings are lists of character codes (`Str := List Nat`); the
  string operations used by the engine (`strip`, `upper`, regex shape
  tests, lexicographic comparison) are modelled at ASCII precision,
  which covers every character class the source inspects.
- A pandas scalar cell is a `Cell`: missing (`NaN`/`None`), a string, or
  an integer.  Numeric cells are modelled at integer precision; every
  code path the claims exercise handles integer-valued quantities, and
  float-formatted raw text is carried separately by the loader's
  float-detection map exactly as in the source.
- A DataFrame carrying the canonical column set is a `List Row`; the
  pandas positional index (a fresh `RangeIndex`, as produced by
  `read_csv`) is recovered with `List.enum`.
- Fallible Python operations (`int(...)`, elementwise `<` on an object
  column) return `Except`/`Option` values instead of raising.
-/

deriving instance DecidableEq for Except

namespace Inventory

/-- Python strings, modelled as lists of character codes. -/
abbrev Str := List Nat

/-- Decode a Lean string literal into the model's string type. -/
def strOf (s : String) : Str := s.toList.map Char.toNat

/-- Whitespace test matching the ASCII characters `str.strip` removes. -/
def isWs (c : Nat) : Bool := c = 32 || c = 9 || c = 10 || c = 13 || c = 11 || c = 12

/-- Embedding of Python `str.strip`: drop leading and trailing whitespace. -/
def pyStrip (s : Str) : Str := ((s.dropWhile isWs).reverse.dropWhile isWs).reverse

/-- Embedding of Python `str.upper` on a single character code (ASCII range). -/
def upChar (c : Nat) : Nat := if 97 ≤ c ∧ c ≤ 122 then c - 32 else c

/-- Embedding of Python `str.upper`. -/
def pyUpper (s : Str) : Str := s.map upChar

/-- Decimal digit test (regex class `\d` at ASCII precision). -/
def isDigit (c : Nat) : Bool := 48 ≤ c && c ≤ 57

/-- Decimal digits of a natural number, most significant first; structural
recursion on a fuel bound so the definition reduces during evaluation. -/
def natDigitsGo (fuel n : Nat) : Str :=
  match fuel with
  | 0 => []
  | f + 1 => if n < 10 then [48 + n] else natDigitsGo f (n / 10) ++ [48 + n % 10]

/-- Decimal digits of a natural number, most significant first. -/
def natDigits (n : Nat) : Str := natDigitsGo (n + 1) n

/-- Embedding of Python `str(...)` on an integer. -/
def intToStr (z : Int) : Str :=
  if z < 0 then 45 :: natDigits z.natAbs else natDigits z.natAbs

/-- A pandas scalar cell: missing (`NaN`/`None`), a string, or an integer. -/
inductive Cell where
  | na : Cell
  | str (s : Str) : Cell
  | int (z : Int) : Cell
deriving DecidableEq, Repr

/-- Embedding of Python `str(...)` on a cell (`str(nan)` prints `nan`). -/
def cellStr : Cell → Str
  | .na => strOf "nan"
  | .str s => s
  | .int z => intToStr z

/-- Whether a cell holds an integer (the shape normalization guarantees
for the quantity column). -/
def Cell.isInt : Cell → Bool
  | .int _ => true
  | _ => false

/-- Shape test for the regex `^SKU\d{3}$` used by `normalize_sku`. -/
def skuShape (s : Str) : Bool :=
  s.length = 6 && decide (s.take 3 = strOf "SKU") && (s.drop 3).all isDigit

/-- Embedding of `normalizer.normalize_sku`: empty for missing input,
otherwise strip, uppercase, and hyphenate a bare `SKUNNN`. -/
def normalize_sku (sku : Cell) : Str :=
  match sku with
  | .na => []
  | c =>
    let clean := pyUpper (pyStrip (cellStr c))
    if skuShape clean then clean.take 3 ++ [45] ++ clean.drop 3 else clean

/-- Embedding of `normalizer.normalize_name`: empty for missing input,
otherwise strip surrounding whitespace. -/
def normalize_name (name : Cell) : Str :=
  match name with
  | .na => []
  | c => pyStrip (cellStr c)

/-- Embedding of `normalizer.normalize_location`. -/
def normalize_location (location : Cell) : Str :=
  match location with
  | .na => []
  | c => pyStrip (cellStr c)

/-- One row of a snapshot DataFrame, with the canonical column set
produced by the loader. -/
structure Row where
  sku : Cell
  name : Cell
  quantity : Cell
  location : Cell
  last_counted : Cell
deriving DecidableEq, Repr

/-- A snapshot DataFrame with the canonical columns. -/
abbrev Table := List Row

/-- The composite key `(sku, location)` of a row. -/
def rowKey (r : Row) : Cell × Cell := (r.sku, r.location)

/-- Numeric value of a digit string, most significant digit first. -/
def digitsVal (ds : Str) : Nat := ds.foldl (fun acc c => acc * 10 + (c - 48)) 0

/-- Embedding of `pd.to_numeric(..., errors="coerce")` on a string followed
by integer truncation (`astype(int)` truncates toward zero): optional sign,
digits, optional fractional part.  Returns `none` where pandas yields `NaN`. -/
def parseDecimal (s : Str) : Option Int :=
  let t := pyStrip s
  let signed : Bool × Str :=
    match t with
    | 45 :: r => (true, r)
    | 43 :: r => (false, r)
    | r => (false, r)
  let intPart := signed.2.takeWhile isDigit
  let after := signed.2.dropWhile isDigit
  let ok : Bool :=
    match after with
    | [] => !intPart.isEmpty
    | 46 :: frac => (!intPart.isEmpty || !frac.isEmpty) && frac.all isDigit
    | _ => false
  if ok then
    let v : Int := Int.ofNat (digitsVal intPart)
    some (if signed.1 then -v else v)
  else none

/-- Numeric coercion of a quantity cell, as applied by the normalizer's
`pd.to_numeric(...).astype(int)` pipeline stage. -/
def toNumericCell : Cell → Option Int
  | .na => none
  | .int z => some z
  | .str s => parseDecimal s

/-- Embedding of Python `int(value)`: raises (models as `Except.error`) on
`NaN` and on strings that are not pure integer literals. -/
def intCell : Cell → Except Str Int
  | .na => .error (strOf "ValueError")
  | .int z => .ok z
  | .str s =>
    let t := pyStrip s
    let signed : Bool × Str :=
      match t with
      | 45 :: r => (true, r)
      | 43 :: r => (false, r)
      | r => (false, r)
    if !signed.2.isEmpty && signed.2.all isDigit then
      .ok (if signed.1 then -(Int.ofNat (digitsVal signed.2)) else Int.ofNat (digitsVal signed.2))
    else .error (strOf "ValueError")

/-- Embedding of `reconciler._safe_int`: `None` for missing values, `None`
where `int(...)` would raise, the integer otherwise. -/
def safe_int (value : Cell) : Option Int :=
  match value with
  | .na => none
  | c => (intCell c).toOption

/-- A heap of DataFrame objects, indexed by reference.  Mutation of a
DataFrame in place is a write at its reference; `df.copy()` allocates. -/
abbrev Heap := List Table

/-- Dereference a DataFrame. -/
def readH (h : Heap) (r : Nat) : Table := h.getD r []

/-- Overwrite the DataFrame behind a reference. -/
def writeH (h : Heap) (r : Nat) (t : Table) : Heap := h.set r t

/-- Allocate a fresh DataFrame holding the given value. -/
def allocH (h : Heap) (t : Table) : Heap × Nat := (h ++ [t], h.length)

/-- Per-category lists of row indices that required normalization, as
returned by `normalize_dataframe`. -/
structure NormMap where
  sku_normalized : List Nat
  name_trimmed : List Nat
  location_trimmed : List Nat
deriving DecidableEq, Repr

/-- Row indices (`for idx in result.index`) at which the original/new value
pair satisfies the change test. -/
def trackIdx (origs news : List Str) (changed : Str → Str → Bool) : List Nat :=
  ((origs.zip news).enum.filter (fun p => changed p.2.1 p.2.2)).map (fun p => p.1)

/-- Embedding of `normalizer.normalize_dataframe` against the heap model,
line by line: copy the input, rewrite the sku/name/location columns of the
copy while recording changed row indices, coerce the quantity column.
All writes target the copy's reference; the input reference is only read. -/
def normalize_dataframe_heap (h : Heap) (df : Nat) : (Heap × Nat) × NormMap :=
  let alloc := allocH h (readH h df)
  let h0 := alloc.1
  let res := alloc.2
  let originalSkus := (readH h0 res).map (fun r => cellStr r.sku)
  let h1 := writeH h0 res
    ((readH h0 res).map (fun r => { r with sku := .str (normalize_sku r.sku) }))
  let skuIdx := trackIdx (originalSkus.map pyStrip)
    ((readH h1 res).map (fun r => cellStr r.sku))
    (fun o n => decide (pyUpper o ≠ n) || decide (o ≠ n))
  let originalNames := (readH h1 res).map (fun r => cellStr r.name)
  let h2 := writeH h1 res
    ((readH h1 res).map (fun r => { r with name := .str (normalize_name r.name) }))
  let nameIdx := trackIdx originalNames
    ((readH h2 res).map (fun r => cellStr r.name))
    (fun o n => decide (o ≠ n))
  let originalLocs := (readH h2 res).map (fun r => cellStr r.location)
  let h3 := writeH h2 res
    ((readH h2 res).map (fun r => { r with location := .str (normalize_location r.location) }))
  let locIdx := trackIdx originalLocs
    ((readH h3 res).map (fun r => cellStr r.location))
    (fun o n => decide (o ≠ n))
  let h4 := writeH h3 res
    ((readH h3 res).map (fun r => { r with quantity := .int ((toNumericCell r.quantity).getD 0) }))
  ((h4, res), ⟨skuIdx, nameIdx, locIdx⟩)

/-- Value-level view of `normalize_dataframe`: run the heap embedding on a
one-object heap and read the result back. -/
def normalize_dataframe (t : Table) : Table × NormMap :=
  let out := normalize_dataframe_heap [t] 0
  (readH out.1.1 out.1.2, out.2)

/-- Closed enumeration of quality issue types (`models.quality_issue`). -/
inductive IssueType where
  | duplicate_key
  | negative_quantity
  | quantity_coerced
  | column_name_mismatch
  | sku_format_normalized
  | whitespace_trimmed
  | date_format_inconsistent
  | date_regression
  | name_drift
  | empty_file
  | missing_required_column
deriving DecidableEq, Repr

/-- The literal string value carried by the `issue_type` field. -/
def IssueType.toStr : IssueType → Str
  | .duplicate_key => strOf "duplicate_key"
  | .negative_quantity => strOf "negative_quantity"
  | .quantity_coerced => strOf "quantity_coerced"
  | .column_name_mismatch => strOf "column_name_mismatch"
  | .sku_format_normalized => strOf "sku_format_normalized"
  | .whitespace_trimmed => strOf "whitespace_trimmed"
  | .date_format_inconsistent => strOf "date_format_inconsistent"
  | .date_regression => strOf "date_regression"
  | .name_drift => strOf "name_drift"
  | .empty_file => strOf "empty_file"
  | .missing_required_column => strOf "missing_required_column"

/-- Severity levels (`Literal["error", "warning", "info"]`). -/
inductive Severity where
  | error
  | warning
  | info
deriving DecidableEq, Repr

/-- The literal string value carried by the `severity` field. -/
def Severity.toStr : Severity → Str
  | .error => strOf "error"
  | .warning => strOf "warning"
  | .info => strOf "info"

/-- Source file tags (`Literal["snapshot_1", "snapshot_2", "both"]`). -/
inductive SourceFile where
  | snapshot_1
  | snapshot_2
  | both
deriving DecidableEq, Repr

/-- The literal string value carried by the `source_file` field. -/
def SourceFile.toStr : SourceFile → Str
  | .snapshot_1 => strOf "snapshot_1"
  | .snapshot_2 => strOf "snapshot_2"
  | .both => strOf "both"

/-- Embedding of `models.quality_issue.DataQualityIssue`. -/
structure DataQualityIssue where
  issue_type : IssueType
  severity : Severity
  source_file : SourceFile
  row_number : Option Nat
  field : Option Str
  original_value : Option Str
  normalized_value : Option Str
  description : Str
deriving DecidableEq, Repr

/-- Number of rows of a table sharing a composite key. -/
def keyCount (t : Table) (k : Cell × Cell) : Nat :=
  t.countP (fun r => decide (rowKey r = k))

/-- Embedding of `reconciler.find_duplicates`: the rows whose key occurs
more than once (`duplicated(..., keep=False)` marks all occurrences). -/
def find_duplicates (t : Table) : Table :=
  t.filter (fun r => decide (2 ≤ keyCount t (rowKey r)))

/-- Embedding of `quality_checker.check_duplicates`. -/
def check_duplicates (t : Table) (source : SourceFile) : List DataQualityIssue :=
  (t.enum.filter (fun p => decide (2 ≤ keyCount t (rowKey p.2)))).map (fun p =>
    let rowNum := p.1 + 1
    let keyVal := cellStr p.2.sku ++ [64] ++ cellStr p.2.location
    { issue_type := .duplicate_key, severity := .error, source_file := source,
      row_number := some rowNum, field := some (strOf "sku,location"),
      original_value := some keyVal, normalized_value := none,
      description := strOf "Duplicate key " ++ keyVal ++ strOf " at row " ++ natDigits rowNum })

/-- Elementwise `quantity < 0`, raising `TypeError` on a string cell as the
pandas comparison does on an object column (`NaN < 0` is `False`). -/
def cellLtZero : Cell → Except Str Bool
  | .na => .ok false
  | .int z => .ok (decide (z < 0))
  | .str _ => .error (strOf "TypeError")

/-- Embedding of `quality_checker.check_negative_quantities`: the whole
mask `df["quantity"] < 0` is computed first (and can raise), then the
masked rows are reported. -/
def check_negative_quantities (t : Table) (source : SourceFile) :
    Except Str (List DataQualityIssue) :=
  match t.mapM (fun r => cellLtZero r.quantity) with
  | .error e => .error e
  | .ok mask => .ok (((t.enum.zip mask).filter (fun p => p.2)).map (fun p =>
    let rowNum := p.1.1 + 1
    let qs := cellStr p.1.2.quantity
    let ss := cellStr p.1.2.sku
    { issue_type := .negative_quantity, severity := .error, source_file := source,
      row_number := some rowNum, field := some (strOf "quantity"),
      original_value := some qs, normalized_value := none,
      description := strOf "Negative quantity " ++ qs ++ strOf " for SKU " ++ ss
        ++ strOf " at row " ++ natDigits rowNum }))

/-- Embedding of `quality_checker.check_sku_format`: an issue per row whose
stripped SKU is changed (to a nonempty value) by `normalize_sku`. -/
def check_sku_format (t : Table) (source : SourceFile) : List DataQualityIssue :=
  (t.enum.filter (fun p =>
      let originalSku := pyStrip (cellStr p.2.sku)
      let normalizedSku := normalize_sku (.str originalSku)
      decide (originalSku ≠ normalizedSku) && !normalizedSku.isEmpty)).map (fun p =>
    let originalSku := pyStrip (cellStr p.2.sku)
    let normalizedSku := normalize_sku (.str originalSku)
    let rowNum := p.1 + 1
    { issue_type := .sku_format_normalized, severity := .warning, source_file := source,
      row_number := some rowNum, field := some (strOf "sku"),
      original_value := some originalSku, normalized_value := some normalizedSku,
      description := strOf "SKU normalized from '" ++ originalSku ++ strOf "' to '"
        ++ normalizedSku ++ strOf "' at row " ++ natDigits rowNum })

/-- Simplified Python `repr` of a string: single-quoted with backslash
escapes for the characters the engine's data can contain. -/
def reprChar (c : Nat) : Str :=
  if c = 92 then [92, 92]
  else if c = 39 then [92, 39]
  else if c = 10 then [92, 110]
  else if c = 13 then [92, 114]
  else if c = 9 then [92, 116]
  else [c]

/-- Python `repr` on a string value (scoped to the escapes above). -/
def pyRepr (s : Str) : Str := [39] ++ (s.map reprChar).flatten ++ [39]

/-- One field's pass of `quality_checker.check_whitespace`. -/
def whitespaceIssuesFor (t : Table) (source : SourceFile) (fieldName : Str)
    (get : Row → Cell) : List DataQualityIssue :=
  (t.enum.filter (fun p => decide (cellStr (get p.2) ≠ pyStrip (cellStr (get p.2))))).map
    (fun p =>
      let original := cellStr (get p.2)
      let trimmed := pyStrip original
      let rowNum := p.1 + 1
      { issue_type := .whitespace_trimmed, severity := .warning, source_file := source,
        row_number := some rowNum, field := some fieldName,
        original_value := some (pyRepr original), normalized_value := some trimmed,
        description := strOf "Whitespace trimmed from " ++ fieldName
          ++ strOf " at row " ++ natDigits rowNum })

/-- Embedding of `quality_checker.check_whitespace`: the `name` pass runs
before the `location` pass (outer loop over the two text fields). -/
def check_whitespace (t : Table) (source : SourceFile) : List DataQualityIssue :=
  whitespaceIssuesFor t source (strOf "name") (fun r => r.name)
    ++ whitespaceIssuesFor t source (strOf "location") (fun r => r.location)

/-- Shape test for the regex `^\d{4}-\d{2}-\d{2}$`. -/
def isoShape (s : Str) : Bool :=
  s.length = 10 && (s.take 4).all isDigit && decide (s.get? 4 = some 45)
    && ((s.drop 5).take 2).all isDigit && decide (s.get? 7 = some 45)
    && (s.drop 8).all isDigit

/-- Embedding of `quality_checker.check_date_format`. -/
def check_date_format (t : Table) (source : SourceFile) : List DataQualityIssue :=
  (t.enum.filter (fun p => !isoShape (pyStrip (cellStr p.2.last_counted)))).map (fun p =>
    let dateValue := pyStrip (cellStr p.2.last_counted)
    let rowNum := p.1 + 1
    { issue_type := .date_format_inconsistent, severity := .warning, source_file := source,
      row_number := some rowNum, field := some (strOf "last_counted"),
      original_value := some dateValue, normalized_value := none,
      description := strOf "Date '" ++ dateValue
        ++ strOf "' is not in ISO format (YYYY-MM-DD) at row " ++ natDigits rowNum })

/-- Inner merge of two tables on the composite key: every left row paired
with every key-matching right row, in order. -/
def innerJoin (t1 t2 : Table) : List (Row × Row) :=
  t1.flatMap (fun r1 =>
    (t2.filter (fun r2 => decide (rowKey r2 = rowKey r1))).map (fun r2 => (r1, r2)))

/-- Day count of a month, with Gregorian leap years, as validated by
`datetime.date`. -/
def daysInMonth (y m : Nat) : Nat :=
  if m = 2 then (if (y % 4 = 0 ∧ y % 100 ≠ 0) ∨ y % 400 = 0 then 29 else 28)
  else if m = 4 ∨ m = 6 ∨ m = 9 ∨ m = 11 then 30 else 31

/-- Embedding of the nested `parse_date` of `check_date_regression`: the
ISO shape test followed by `datetime.date` range validation. -/
def parse_date (s : Str) : Option (Nat × Nat × Nat) :=
  let t := pyStrip s
  if isoShape t then
    let y := digitsVal (t.take 4)
    let m := digitsVal ((t.drop 5).take 2)
    let d := digitsVal (t.drop 8)
    if 1 ≤ y ∧ y ≤ 9999 ∧ 1 ≤ m ∧ m ≤ 12 ∧ 1 ≤ d ∧ d ≤ daysInMonth y m then
      some (y, m, d)
    else none
  else none

/-- Strict chronological order on parsed dates. -/
def dateLt (a b : Nat × Nat × Nat) : Bool :=
  a.1 < b.1 || (a.1 = b.1 && (a.2.1 < b.2.1 || (a.2.1 = b.2.1 && a.2.2 < b.2.2)))

/-- Embedding of `quality_checker.check_date_regression`: over the inner
join of the snapshots, report pairs of parseable dates that go backwards;
unparseable dates are skipped. -/
def check_date_regression (t1 t2 : Table) : List DataQualityIssue :=
  (innerJoin t1 t2).filterMap (fun p =>
    let oldStr := pyStrip (cellStr p.1.last_counted)
    let newStr := pyStrip (cellStr p.2.last_counted)
    match parse_date oldStr, parse_date newStr with
    | some od, some nd =>
      if dateLt nd od then
        some
          { issue_type := .date_regression, severity := .warning, source_file := .both,
            row_number := none, field := some (strOf "last_counted"),
            original_value := some oldStr, normalized_value := some newStr,
            description := strOf "Date regressed for " ++ cellStr p.1.sku ++ [64]
              ++ cellStr p.1.location ++ strOf ": '" ++ oldStr ++ strOf "' -> '"
              ++ newStr ++ strOf "'" }
      else none
    | _, _ => none)

/-- Embedding of Python `str.lower` on a single ASCII character code. -/
def lowChar (c : Nat) : Nat := if 65 ≤ c ∧ c ≤ 90 then c + 32 else c

/-- Embedding of Python `str.lower`. -/
def pyLower (s : Str) : Str := s.map lowChar

/-- The fixed alternate-name table of `loader.COLUMN_MAPPING`, repeated
locally in `check_column_names`. -/
def column_mapping_assoc : List (Str × Str) :=
  [(strOf "product_name", strOf "name"), (strOf "qty", strOf "quantity"),
   (strOf "warehouse", strOf "location"), (strOf "updated_at", strOf "last_counted")]

/-- Embedding of `quality_checker.check_column_names`. -/
def check_column_names (mappedCols : List Str) (source : SourceFile) :
    List DataQualityIssue :=
  mappedCols.map (fun originalName =>
    let canonical :=
      ((column_mapping_assoc.find? (fun p => decide (p.1 = pyLower originalName))).map
        Prod.snd).getD originalName
    { issue_type := .column_name_mismatch, severity := .info, source_file := source,
      row_number := none, field := some originalName,
      original_value := some originalName, normalized_value := some canonical,
      description := strOf "Column '" ++ originalName ++ strOf "' mapped to '"
        ++ canonical ++ strOf "'" })

/-- Embedding of `quality_checker.check_name_drift`. -/
def check_name_drift (t1 t2 : Table) : List DataQualityIssue :=
  (innerJoin t1 t2).filterMap (fun p =>
    let oldName := pyStrip (cellStr p.1.name)
    let newName := pyStrip (cellStr p.2.name)
    if oldName ≠ newName then
      some
        { issue_type := .name_drift, severity := .warning, source_file := .both,
          row_number := none, field := some (strOf "name"),
          original_value := some oldName, normalized_value := some newName,
          description := strOf "Name changed for " ++ cellStr p.1.sku ++ [64]
            ++ cellStr p.1.location ++ strOf ": '" ++ oldName ++ strOf "' -> '"
            ++ newName ++ strOf "'" }
    else none)

/-- Embedding of `quality_checker.check_empty_file`. -/
def check_empty_file (t : Table) (source : SourceFile) : List DataQualityIssue :=
  if t.isEmpty then
    [{ issue_type := .empty_file, severity := .error, source_file := source,
       row_number := none, field := none, original_value := none,
       normalized_value := none,
       description := strOf "File " ++ source.toStr ++ strOf " contains no data rows" }]
  else []

/-- Embedding of `quality_checker.check_missing_columns`. -/
def check_missing_columns (missingCols : List Str) (source : SourceFile) :
    List DataQualityIssue :=
  missingCols.map (fun col =>
    { issue_type := .missing_required_column, severity := .error, source_file := source,
      row_number := none, field := some col, original_value := none,
      normalized_value := none,
      description := strOf "Required column '" ++ col ++ strOf "' not found in "
        ++ source.toStr })

/-- One iteration of the per-snapshot loop of `run_all_checks` (`continue`
on an empty frame, otherwise the five per-file detectors in order). -/
def per_snapshot_checks (df : Table) (source : SourceFile) :
    Except Str (List DataQualityIssue) :=
  if df.isEmpty then .ok []
  else
    match check_negative_quantities df source with
    | .error e => .error e
    | .ok neg =>
      .ok (check_duplicates df source ++ neg ++ check_sku_format df source
        ++ check_whitespace df source ++ check_date_format df source)

/-- Embedding of `quality_checker.run_all_checks`: the fixed battery, in
source order — empty-file, missing-column and column-mapping checks, then
the per-snapshot checks (skipping empty frames), then the cross-snapshot
checks (only when both frames are nonempty).  The negative-quantity mask
can raise, so the battery is fallible. -/
def run_all_checks (df1 df2 : Table) (mapped1 mapped2 missing1 missing2 : List Str) :
    Except Str (List DataQualityIssue) :=
  let base := check_empty_file df1 .snapshot_1 ++ check_empty_file df2 .snapshot_2
    ++ check_missing_columns missing1 .snapshot_1 ++ check_missing_columns missing2 .snapshot_2
    ++ check_column_names mapped1 .snapshot_1 ++ check_column_names mapped2 .snapshot_2
  match per_snapshot_checks df1 .snapshot_1 with
  | .error e => .error e
  | .ok per1 =>
    match per_snapshot_checks df2 .snapshot_2 with
    | .error e => .error e
    | .ok per2 =>
      let cross :=
        if !df1.isEmpty && !df2.isEmpty then
          check_name_drift df1 df2 ++ check_date_regression df1 df2
        else []
      .ok (base ++ per1 ++ per2 ++ cross)

/-- Reconciliation statuses (`models.reconciliation_result`). -/
inductive RStatus where
  | unchanged
  | quantity_changed
  | added
  | removed
deriving DecidableEq, Repr

/-- The literal string value carried by the `status` field. -/
def RStatus.toStr : RStatus → Str
  | .unchanged => strOf "unchanged"
  | .quantity_changed => strOf "quantity_changed"
  | .added => strOf "added"
  | .removed => strOf "removed"

/-- Embedding of `models.reconciliation_result.ReconciliationResult`.  The
`sku`/`location` fields carry the raw cell values the source stores; the
name fields are `none` exactly where the source passes Python `None`. -/
structure ReconciliationResult where
  sku : Cell
  location : Cell
  status : RStatus
  old_quantity : Option Int
  new_quantity : Option Int
  quantity_delta : Option Int
  old_name : Option Cell
  new_name : Option Cell
deriving DecidableEq, Repr

/-- One row of the outer merge of the two snapshots, tagged with the
`_merge` indicator. -/
inductive MergedRow where
  | leftOnly (r1 : Row)
  | rightOnly (r2 : Row)
  | both (r1 r2 : Row)
deriving DecidableEq, Repr

/-- Embedding of `pd.merge(df1, df2, on=key_cols, how="outer", ...)`: every
left row paired with its key-matching right rows (or tagged left-only),
followed by the unmatched right rows.  The pandas result lists the same
multiset of merged rows (it sorts the outer keys); no claim depends on the
row order. -/
def mergeOuter (t1 t2 : Table) : List MergedRow :=
  (t1.flatMap fun r1 =>
    let ms := t2.filter (fun r2 => decide (rowKey r2 = rowKey r1))
    if ms.isEmpty then [MergedRow.leftOnly r1] else ms.map (MergedRow.both r1))
  ++ (t2.filter (fun r2 => !t1.any (fun r1 => decide (rowKey r1 = rowKey r2)))).map
      MergedRow.rightOnly

/-- The composite key carried by a merged row (the merge key columns). -/
def mergedKey : MergedRow → Cell × Cell
  | .leftOnly r1 => rowKey r1
  | .rightOnly r2 => rowKey r2
  | .both r1 _ => rowKey r1

/-- Classification of one merged row, mirroring the loop body of
`reconciler.reconcile` (the non-empty-frame path, which uses `_safe_int`). -/
def classifyMerged : MergedRow → ReconciliationResult
  | .leftOnly r1 =>
    { sku := r1.sku, location := r1.location, status := .removed,
      old_quantity := safe_int r1.quantity, new_quantity := none,
      quantity_delta := none, old_name := some r1.name, new_name := none }
  | .rightOnly r2 =>
    { sku := r2.sku, location := r2.location, status := .added,
      old_quantity := none, new_quantity := safe_int r2.quantity,
      quantity_delta := none, old_name := none, new_name := some r2.name }
  | .both r1 r2 =>
    let oldQty := safe_int r1.quantity
    let newQty := safe_int r2.quantity
    if oldQty = newQty then
      { sku := r1.sku, location := r1.location, status := .unchanged,
        old_quantity := oldQty, new_quantity := newQty, quantity_delta := some 0,
        old_name := some r1.name, new_name := some r2.name }
    else
      { sku := r1.sku, location := r1.location, status := .quantity_changed,
        old_quantity := oldQty, new_quantity := newQty,
        quantity_delta :=
          match oldQty, newQty with
          | some o, some n => some (n - o)
          | _, _ => none,
        old_name := some r1.name, new_name := some r2.name }

/-- The `added` result built in the `df1.empty` branch of `reconcile`,
which calls raw `int(row["quantity"])` and can therefore raise. -/
def addedResult (r : Row) : Except Str ReconciliationResult := do
  let q ← intCell r.quantity
  pure
    { sku := r.sku, location := r.location, status := .added,
      old_quantity := none, new_quantity := some q, quantity_delta := none,
      old_name := none, new_name := some r.name }

/-- The `removed` result built in the `df2.empty` branch of `reconcile`. -/
def removedResult (r : Row) : Except Str ReconciliationResult := do
  let q ← intCell r.quantity
  pure
    { sku := r.sku, location := r.location, status := .removed,
      old_quantity := some q, new_quantity := none, quantity_delta := none,
      old_name := some r.name, new_name := none }

/-- Embedding of `reconciler.reconcile`: empty-frame shortcuts (whose raw
`int(...)` conversions can raise), then the outer merge classified row by
row. -/
def reconcile (t1 t2 : Table) : Except Str (List ReconciliationResult) :=
  if t1.isEmpty && t2.isEmpty then .ok []
  else if t1.isEmpty then t2.mapM addedResult
  else if t2.isEmpty then t1.mapM removedResult
  else .ok ((mergeOuter t1 t2).map classifyMerged)

/-- The duplicate filtering step of `cli.main`: when duplicates exist, keep
only the rows whose key occurs once (`~duplicated(..., keep=False)`). -/
def filterDuplicates (t : Table) : Table :=
  if (find_duplicates t).isEmpty then t
  else t.filter (fun r => decide (keyCount t (rowKey r) < 2))

/-- Steps 3–6 of `cli.main` on loaded tables: normalize both snapshots,
filter duplicate keys, reconcile. -/
def pipelineResults (t1 t2 : Table) : Except Str (List ReconciliationResult) :=
  reconcile (filterDuplicates (normalize_dataframe t1).1)
    (filterDuplicates (normalize_dataframe t2).1)

/-- Severity tallies of the report summary. -/
structure SeverityCounts where
  error : Nat
  warning : Nat
  info : Nat
deriving DecidableEq, Repr

/-- Embedding of `models.report.ReportMetadata`. -/
structure ReportMetadata where
  generated_at : Str
  snapshot_1_path : Str
  snapshot_2_path : Str
  snapshot_1_rows : Nat
  snapshot_2_rows : Nat
  snapshot_1_valid_rows : Nat
  snapshot_2_valid_rows : Nat
deriving DecidableEq, Repr

/-- Embedding of `models.report.ReportSummary`. -/
structure ReportSummary where
  total_items_compared : Nat
  unchanged : Nat
  quantity_changed : Nat
  added : Nat
  removed : Nat
  quality_issues_count : Nat
  quality_issues_by_severity : SeverityCounts
deriving DecidableEq, Repr

/-- Embedding of `models.report.ResultsByStatus`. -/
structure ResultsByStatus where
  unchanged : List ReconciliationResult
  quantity_changed : List ReconciliationResult
  added : List ReconciliationResult
  removed : List ReconciliationResult
deriving DecidableEq, Repr

/-- Embedding of `models.report.ReconciliationReport`. -/
structure ReconciliationReport where
  metadata : ReportMetadata
  summary : ReportSummary
  results : ResultsByStatus
  quality_issues : List DataQualityIssue
deriving DecidableEq, Repr

/-- Ordering key of a cell for the reporter's result sort.  Python compares
the tuple `(r.sku, r.location)` elementwise; on the string cells the
engine produces this is code-point lexicographic order, which the `Lex`
encoding mirrors (non-string cells are ranked by constructor so the model
stays total where Python would raise `TypeError`). -/
def cellKey (c : Cell) : Lex (Nat × Lex (Int × Str)) :=
  match c with
  | .na => toLex (0, toLex (0, []))
  | .int z => toLex (1, toLex (z, []))
  | .str s => toLex (2, toLex (0, s))

/-- The reporter's result sort key `(r.sku, r.location)`. -/
def resultSortKey (r : ReconciliationResult) : Lex ((Lex (Nat × Lex (Int × Str))) × (Lex (Nat × Lex (Int × Str)))) :=
  toLex (cellKey r.sku, cellKey r.location)

/-- Comparison relation of `sorted(..., key=lambda r: (r.sku, r.location))`. -/
def resultSortRel (a b : ReconciliationResult) : Prop :=
  resultSortKey a ≤ resultSortKey b

instance : DecidableRel resultSortRel :=
  fun a b => inferInstanceAs (Decidable (resultSortKey a ≤ resultSortKey b))

instance : IsTotal ReconciliationResult resultSortRel :=
  ⟨fun a b => le_total (resultSortKey a) (resultSortKey b)⟩

instance : IsTrans ReconciliationResult resultSortRel :=
  ⟨fun _ _ _ hab hbc => le_trans hab hbc⟩

/-- The reporter's quality-issue sort key
`(severity, issue_type, source_file, row_number or 0)`: a tuple of the
plain string field values plus the defaulted row number. -/
def issueSortKey (i : DataQualityIssue) : Lex (Str × Lex (Str × Lex (Str × Nat))) :=
  toLex (i.severity.toStr,
    toLex (i.issue_type.toStr, toLex (i.source_file.toStr, i.row_number.getD 0)))

/-- Comparison relation of the quality-issue sort. -/
def issueSortRel (a b : DataQualityIssue) : Prop :=
  issueSortKey a ≤ issueSortKey b

instance : DecidableRel issueSortRel :=
  fun a b => inferInstanceAs (Decidable (issueSortKey a ≤ issueSortKey b))

instance : IsTotal DataQualityIssue issueSortRel :=
  ⟨fun a b => le_total (issueSortKey a) (issueSortKey b)⟩

instance : IsTrans DataQualityIssue issueSortRel :=
  ⟨fun _ _ _ hab hbc => le_trans hab hbc⟩

/-- Embedding of `reporter.build_report`.  The wall clock consulted when no
timestamp is injected is modelled as the explicit `now` argument. -/
def build_report (results : List ReconciliationResult)
    (qualityIssues : List DataQualityIssue)
    (snapshot1Path snapshot2Path : Str) (s1Rows s2Rows s1Valid s2Valid : Nat)
    (generatedAt : Option Str) (now : Str) : ReconciliationReport :=
  let generated := generatedAt.getD now
  let unchanged :=
    List.insertionSort resultSortRel (results.filter (fun r => decide (r.status = .unchanged)))
  let quantityChanged :=
    List.insertionSort resultSortRel
      (results.filter (fun r => decide (r.status = .quantity_changed)))
  let added :=
    List.insertionSort resultSortRel (results.filter (fun r => decide (r.status = .added)))
  let removed :=
    List.insertionSort resultSortRel (results.filter (fun r => decide (r.status = .removed)))
  let bySeverity : SeverityCounts :=
    { error := qualityIssues.countP (fun i => decide (i.severity = .error)),
      warning := qualityIssues.countP (fun i => decide (i.severity = .warning)),
      info := qualityIssues.countP (fun i => decide (i.severity = .info)) }
  let sortedIssues := List.insertionSort issueSortRel qualityIssues
  { metadata :=
      { generated_at := generated, snapshot_1_path := snapshot1Path,
        snapshot_2_path := snapshot2Path, snapshot_1_rows := s1Rows,
        snapshot_2_rows := s2Rows, snapshot_1_valid_rows := s1Valid,
        snapshot_2_valid_rows := s2Valid },
    summary :=
      { total_items_compared := results.length, unchanged := unchanged.length,
        quantity_changed := quantityChanged.length, added := added.length,
        removed := removed.length, quality_issues_count := qualityIssues.length,
        quality_issues_by_severity := bySeverity },
    results :=
      { unchanged := unchanged, quantity_changed := quantityChanged,
        added := added, removed := removed },
    quality_issues := sortedIssues }

/-- A newline followed by the indentation of the next JSON line. -/
def jnl (indent : Nat) : Str := 10 :: List.replicate indent 32

/-- Escapes of `json.dump(..., ensure_ascii=False)` for one character. -/
def jsonEscChar (c : Nat) : Str :=
  if c = 34 then [92, 34]
  else if c = 92 then [92, 92]
  else if c = 10 then [92, 110]
  else if c = 13 then [92, 114]
  else if c = 9 then [92, 116]
  else if c = 8 then [92, 98]
  else if c = 12 then [92, 102]
  else if c < 32 then
    [92, 117, 48, 48, if c / 16 < 10 then 48 + c / 16 else 87 + c / 16,
     if c % 16 < 10 then 48 + c % 16 else 87 + c % 16]
  else [c]

/-- JSON string literal. -/
def jsonStr (s : Str) : Str := 34 :: (s.map jsonEscChar).flatten ++ [34]

/-- JSON rendering of an optional string (absent fields serialize as null). -/
def jsonOptStr : Option Str → Str
  | none => strOf "null"
  | some s => jsonStr s

/-- JSON rendering of an optional integer. -/
def jsonOptInt : Option Int → Str
  | none => strOf "null"
  | some z => intToStr z

/-- JSON rendering of an optional natural number. -/
def jsonOptNat : Option Nat → Str
  | none => strOf "null"
  | some n => natDigits n

/-- JSON rendering of a cell value (`json.dump` writes `NaN` for a float
NaN under its default `allow_nan`). -/
def jsonCell : Cell → Str
  | .na => strOf "NaN"
  | .str s => jsonStr s
  | .int z => intToStr z

/-- JSON rendering of an optional cell. -/
def jsonOptCell : Option Cell → Str
  | none => strOf "null"
  | some c => jsonCell c

/-- Concatenate rendered pieces with a separator. -/
def joinSep (sep : Str) : List Str → Str
  | [] => []
  | [x] => x
  | x :: y :: xs => x ++ sep ++ joinSep sep (y :: xs)

/-- A JSON object over already-rendered key/value pairs, in the emitted key
order, with the two-space indentation of `json.dump(..., indent=2)`.
Callers list keys lexicographically sorted, as `sort_keys=True` does. -/
def jsonObj (indent : Nat) (fields : List (Str × Str)) : Str :=
  if fields.isEmpty then [123, 125]
  else
    123 :: jnl (indent + 2)
      ++ joinSep (44 :: jnl (indent + 2))
          (fields.map (fun f => jsonStr f.1 ++ [58, 32] ++ f.2))
      ++ jnl indent ++ [125]

/-- A JSON array over already-rendered items. -/
def jsonArr (indent : Nat) (items : List Str) : Str :=
  if items.isEmpty then [91, 93]
  else
    91 :: jnl (indent + 2) ++ joinSep (44 :: jnl (indent + 2)) items
      ++ jnl indent ++ [93]

/-- Serialization of one reconciliation result (`ReconciliationResult.to_dict`),
keys in sorted order. -/
def renderResult (indent : Nat) (r : ReconciliationResult) : Str :=
  jsonObj indent
    [(strOf "location", jsonCell r.location),
     (strOf "new_name", jsonOptCell r.new_name),
     (strOf "new_quantity", jsonOptInt r.new_quantity),
     (strOf "old_name", jsonOptCell r.old_name),
     (strOf "old_quantity", jsonOptInt r.old_quantity),
     (strOf "quantity_delta", jsonOptInt r.quantity_delta),
     (strOf "sku", jsonCell r.sku),
     (strOf "status", jsonStr r.status.toStr)]

/-- Serialization of one quality issue (`DataQualityIssue.to_dict`), keys in
sorted order. -/
def renderIssue (indent : Nat) (i : DataQualityIssue) : Str :=
  jsonObj indent
    [(strOf "description", jsonStr i.description),
     (strOf "field", jsonOptStr i.field),
     (strOf "issue_type", jsonStr i.issue_type.toStr),
     (strOf "normalized_value", jsonOptStr i.normalized_value),
     (strOf "original_value", jsonOptStr i.original_value),
     (strOf "row_number", jsonOptNat i.row_number),
     (strOf "severity", jsonStr i.severity.toStr),
     (strOf "source_file", jsonStr i.source_file.toStr)]

/-- Embedding of `reporter.write_json`'s serialization:
`json.dump(report.to_dict(), indent=2, sort_keys=True, ensure_ascii=False)`
plus the explicit trailing newline. -/
def write_json_bytes (rep : ReconciliationReport) : Str :=
  jsonObj 0
    [(strOf "metadata",
      jsonObj 2
        [(strOf "generated_at", jsonStr rep.metadata.generated_at),
         (strOf "snapshot_1_path", jsonStr rep.metadata.snapshot_1_path),
         (strOf "snapshot_1_rows", natDigits rep.metadata.snapshot_1_rows),
         (strOf "snapshot_1_valid_rows", natDigits rep.metadata.snapshot_1_valid_rows),
         (strOf "snapshot_2_path", jsonStr rep.metadata.snapshot_2_path),
         (strOf "snapshot_2_rows", natDigits rep.metadata.snapshot_2_rows),
         (strOf "snapshot_2_valid_rows", natDigits rep.metadata.snapshot_2_valid_rows)]),
     (strOf "quality_issues",
      jsonArr 2 (rep.quality_issues.map (renderIssue 4))),
     (strOf "results",
      jsonObj 2
        [(strOf "added", jsonArr 4 (rep.results.added.map (renderResult 6))),
         (strOf "quantity_changed",
          jsonArr 4 (rep.results.quantity_changed.map (renderResult 6))),
         (strOf "removed", jsonArr 4 (rep.results.removed.map (renderResult 6))),
         (strOf "unchanged", jsonArr 4 (rep.results.unchanged.map (renderResult 6)))]),
     (strOf "summary",
      jsonObj 2
        [(strOf "added", natDigits rep.summary.added),
         (strOf "quality_issues_by_severity",
          jsonObj 4
            [(strOf "error", natDigits rep.summary.quality_issues_by_severity.error),
             (strOf "info", natDigits rep.summary.quality_issues_by_severity.info),
             (strOf "warning", natDigits rep.summary.quality_issues_by_severity.warning)]),
         (strOf "quality_issues_count", natDigits rep.summary.quality_issues_count),
         (strOf "quantity_changed", natDigits rep.summary.quantity_changed),
         (strOf "removed", natDigits rep.summary.removed),
         (strOf "total_items_compared", natDigits rep.summary.total_items_compared),
         (strOf "unchanged", natDigits rep.summary.unchanged)])]
    ++ [10]

/-- First row of a table carrying a composite key, if any (`find?` over the
key columns). -/
def lookupKey (t : Table) (k : Cell × Cell) : Option Row :=
  t.find? (fun r => decide (rowKey r = k))

/-- Severity rank in the order the reporter's plain-string comparison
actually yields: `"error" < "info" < "warning"`. -/
def sevRank : Severity → Nat
  | .error => 0
  | .info => 1
  | .warning => 2

/-! ### String-operation infrastructure -/

theorem dropWhile_head_not (p : Nat → Bool) (l : Str) (a : Nat)
    (h : (l.dropWhile p).head? = some a) : p a = false := by
  induction l with
  | nil => simp [List.dropWhile] at h
  | cons b l ih =>
    rw [List.dropWhile_cons] at h
    by_cases hb : p b
    · rw [if_pos hb] at h
      exact ih h
    · rw [if_neg hb] at h
      simp only [List.head?_cons, Option.some.injEq] at h
      subst h
      simpa using hb

theorem dropWhile_eq_self_of_head (p : Nat → Bool) (l : Str)
    (h : ∀ a, l.head? = some a → p a = false) : l.dropWhile p = l := by
  cases l with
  | nil => rfl
  | cons b l =>
    rw [List.dropWhile_cons, if_neg]
    simp [h b rfl]

theorem dropWhile_idem (p : Nat → Bool) (l : Str) :
    (l.dropWhile p).dropWhile p = l.dropWhile p :=
  dropWhile_eq_self_of_head p _ (fun a h => dropWhile_head_not p l a h)

theorem getLast?_dropWhile (p : Nat → Bool) (l : Str)
    (h : l.dropWhile p ≠ []) : (l.dropWhile p).getLast? = l.getLast? := by
  induction l with
  | nil => simp [List.dropWhile] at h
  | cons b l ih =>
    rw [List.dropWhile_cons] at h ⊢
    by_cases hb : p b
    · rw [if_pos hb] at h ⊢
      have hl : l ≠ [] := by
        rintro rfl
        simp [List.dropWhile] at h
      rw [ih h]
      cases l with
      | nil => exact absurd rfl hl
      | cons c l => rw [List.getLast?_cons_cons]
    · rw [if_neg hb]

theorem pyStrip_head_not (s : Str) (a : Nat) (h : (pyStrip s).head? = some a) :
    isWs a = false := by
  unfold pyStrip at h
  rw [List.head?_reverse] at h
  have hne : (s.dropWhile isWs).reverse.dropWhile isWs ≠ [] := by
    rintro he
    rw [he] at h
    simp at h
  rw [getLast?_dropWhile _ _ hne, List.getLast?_reverse] at h
  exact dropWhile_head_not _ _ _ h

theorem pyStrip_idem (s : Str) : pyStrip (pyStrip s) = pyStrip s := by
  have h1 : (pyStrip s).dropWhile isWs = pyStrip s :=
    dropWhile_eq_self_of_head _ _ (fun a h => pyStrip_head_not s a h)
  show (((pyStrip s).dropWhile isWs).reverse.dropWhile isWs).reverse = pyStrip s
  rw [h1]
  unfold pyStrip
  rw [List.reverse_reverse, dropWhile_idem]

theorem pyStrip_of_all_not (s : Str) (h : ∀ c ∈ s, isWs c = false) :
    pyStrip s = s := by
  have h1 : s.dropWhile isWs = s :=
    dropWhile_eq_self_of_head _ _ (fun a ha => h a (List.mem_of_mem_head? ha))
  have h2 : s.reverse.dropWhile isWs = s.reverse :=
    dropWhile_eq_self_of_head _ _ (fun a ha =>
      h a (List.mem_reverse.mp (List.mem_of_mem_head? ha)))
  unfold pyStrip
  rw [h1, h2, List.reverse_reverse]

theorem isWs_upChar (c : Nat) : isWs (upChar c) = isWs c := by
  unfold upChar
  split
  · rename_i hc
    have h1 : isWs (c - 32) = false := by
      simp only [isWs, Bool.or_eq_false_iff, decide_eq_false_iff_not]
      omega
    have h2 : isWs c = false := by
      simp only [isWs, Bool.or_eq_false_iff, decide_eq_false_iff_not]
      omega
    rw [h1, h2]
  · rfl

theorem upChar_idem (c : Nat) : upChar (upChar c) = upChar c := by
  unfold upChar
  split
  · rename_i hc
    rw [if_neg (by omega)]
  · rfl

theorem pyUpper_idem (s : Str) : pyUpper (pyUpper s) = pyUpper s := by
  unfold pyUpper
  rw [List.map_map]
  exact List.map_congr_left (fun c _ => upChar_idem c)

theorem pyStrip_pyUpper (s : Str) : pyStrip (pyUpper s) = pyUpper (pyStrip s) := by
  have hws : (isWs ∘ upChar) = isWs := funext isWs_upChar
  unfold pyStrip pyUpper
  rw [List.dropWhile_map, hws, ← List.map_reverse, List.dropWhile_map, hws,
    ← List.map_reverse]

theorem upChar_of_digit (c : Nat) (h : isDigit c = true) : upChar c = c := by
  simp only [isDigit, Bool.and_eq_true, decide_eq_true_eq] at h
  unfold upChar
  rw [if_neg (by omega)]

theorem isWs_of_digit_false (c : Nat) (h : isDigit c = true) : isWs c = false := by
  simp only [isDigit, Bool.and_eq_true, decide_eq_true_eq] at h
  simp only [isWs, Bool.or_eq_false_iff, decide_eq_false_iff_not]
  omega

/-! ### Claim C7 — `normalize_sku` algebra -/

theorem normalize_sku_str_idem (w : Str) :
    normalize_sku (.str (normalize_sku (.str w))) = normalize_sku (.str w) := by
  have hclean : pyStrip (pyUpper (pyStrip w)) = pyUpper (pyStrip w) := by
    rw [pyStrip_pyUpper, pyStrip_idem]
  by_cases hshape : skuShape (pyUpper (pyStrip w)) = true
  · set clean := pyUpper (pyStrip w) with hcleanDef
    have hy : normalize_sku (.str w) = clean.take 3 ++ [45] ++ clean.drop 3 := by
      simp only [normalize_sku, cellStr, hshape, if_true]
    simp only [skuShape, Bool.and_eq_true, decide_eq_true_eq, List.all_eq_true] at hshape
    obtain ⟨⟨hlen, htake⟩, hdig⟩ := hshape
    set y := clean.take 3 ++ [45] ++ clean.drop 3 with hyDef
    have hlen6 : clean.length = 6 := by simpa using hlen
    have hSKU : strOf "SKU" = [83, 75, 85] := by decide
    have hyAllNotWs : ∀ c ∈ y, isWs c = false := by
      intro c hc
      rcases List.mem_append.mp hc with hc1 | hc2
      · rcases List.mem_append.mp hc1 with hc3 | hc4
        · rw [htake, hSKU] at hc3
          simp only [List.mem_cons, List.not_mem_nil, or_false] at hc3
          rcases hc3 with rfl | rfl | rfl <;> decide
        · simp only [List.mem_singleton] at hc4
          subst hc4
          decide
      · exact isWs_of_digit_false c (hdig c hc2)
    have hyStrip : pyStrip y = y := pyStrip_of_all_not y hyAllNotWs
    have hyUpper : pyUpper y = y := by
      have hAll : ∀ c ∈ y, upChar c = c := by
        intro c hc
        rcases List.mem_append.mp hc with hc1 | hc2
        · rcases List.mem_append.mp hc1 with hc3 | hc4
          · rw [htake, hSKU] at hc3
            simp only [List.mem_cons, List.not_mem_nil, or_false] at hc3
            rcases hc3 with rfl | rfl | rfl <;> decide
          · simp only [List.mem_singleton] at hc4
            subst hc4
            decide
        · exact upChar_of_digit c (hdig c hc2)
      unfold pyUpper
      calc y.map upChar = y.map id := List.map_congr_left (fun c hc => hAll c hc)
        _ = y := List.map_id y
    have hyLen : y.length = 7 := by
      simp [hyDef, List.length_take, List.length_drop, hlen6]
    have hyShape : skuShape y = false := by
      simp [skuShape, hyLen]
    rw [hy]
    simp only [normalize_sku, cellStr, hyStrip, hyUpper, hyShape]
    simp
  · have hy : normalize_sku (.str w) = pyUpper (pyStrip w) := by
      simp only [normalize_sku, cellStr, hshape]
      simp
    rw [hy]
    simp only [normalize_sku, cellStr, hclean, pyUpper_idem]
    simp only [Bool.not_eq_true] at hshape
    simp [hshape]

/-- Claim C7: `normalize_sku` sends `"sku001"` to `"SKU-001"`, the empty
string to itself, missing input to the empty string, and is idempotent on
every input (re-applying it to its own output is the identity). -/
theorem C7_normalize_sku_algebra :
    normalize_sku (.str (strOf "sku001")) = strOf "SKU-001"
    ∧ normalize_sku (.str (strOf "")) = strOf ""
    ∧ normalize_sku .na = strOf ""
    ∧ ∀ x : Cell, normalize_sku (.str (normalize_sku x)) = normalize_sku x := by
  refine ⟨by decide, by decide, rfl, ?_⟩
  intro x
  cases x with
  | na =>
    show normalize_sku (.str []) = []
    decide
  | str s => exact normalize_sku_str_idem s
  | int z =>
    have h : normalize_sku (.int z) = normalize_sku (.str (intToStr z)) := by
      simp [normalize_sku, cellStr]
    rw [h, normalize_sku_str_idem]

/-! ### Row-number counting over enumerated tables -/

theorem countP_enumFrom_lt (Q : Nat × Row → Bool) :
    ∀ (l : Table) (n i : Nat), i < n →
      (List.enumFrom n l).countP (fun p => decide (p.1 = i) && Q p) = 0 := by
  intro l
  induction l with
  | nil => intro n i _; rfl
  | cons r l ih =>
    intro n i h
    show ((n, r) :: List.enumFrom (n + 1) l).countP _ = 0
    rw [List.countP_cons]
    have hhead : (decide ((n, r).1 = i) && Q (n, r)) = false := by
      have : n ≠ i := by omega
      simp [this]
    rw [hhead, if_neg (by simp), ih (n + 1) i (by omega)]

theorem countP_enumFrom_eq (Q : Nat × Row → Bool) :
    ∀ (l : Table) (n i : Nat),
      (List.enumFrom n l).countP (fun p => decide (p.1 = n + i) && Q p) =
        (match l[i]? with
         | some r => if Q (n + i, r) then 1 else 0
         | none => 0) := by
  intro l
  induction l with
  | nil => intro n i; rfl
  | cons r l ih =>
    intro n i
    show ((n, r) :: List.enumFrom (n + 1) l).countP _ = _
    rw [List.countP_cons]
    cases i with
    | zero =>
      have htail :
          (List.enumFrom (n + 1) l).countP (fun p => decide (p.1 = n + 0) && Q p) = 0 :=
        countP_enumFrom_lt Q l (n + 1) (n + 0) (by omega)
      rw [htail]
      simp [List.getElem?_cons_zero]
    | succ j =>
      have hn : n + (j + 1) = (n + 1) + j := by omega
      rw [hn]
      have hhead : (decide ((n, r).1 = (n + 1) + j) && Q (n, r)) = false := by
        have : n ≠ (n + 1) + j := by omega
        simp [this]
      rw [hhead, if_neg (by simp), ih (n + 1) j]
      simp [List.getElem?_cons_succ]

/-- Counting issues by row number through a `(t.enum.filter P).map F`
shaped detector: row `i` is reported once when it satisfies the filter,
never otherwise. -/
theorem countP_rowNumber_enum_filter_map (t : Table) (P : Nat × Row → Bool)
    (F : Nat × Row → DataQualityIssue)
    (hF : ∀ p, (F p).row_number = some (p.1 + 1)) (i : Nat) :
    ((t.enum.filter P).map F).countP (fun iss => decide (iss.row_number = some (i + 1))) =
      (match t[i]? with
       | some r => if P (i, r) then 1 else 0
       | none => 0) := by
  rw [List.countP_map, List.countP_filter]
  have hpred : ∀ p ∈ t.enum,
      (((fun iss => decide (iss.row_number = some (i + 1))) ∘ F) p && P p) = true ↔
        (decide (p.1 = i) && P p) = true := by
    intro p _
    simp only [Function.comp_apply, hF p, Bool.and_eq_true, decide_eq_true_eq,
      Option.some.injEq]
    constructor
    · rintro ⟨h1, h2⟩
      exact ⟨by omega, h2⟩
    · rintro ⟨h1, h2⟩
      exact ⟨by omega, h2⟩
  rw [List.countP_congr hpred]
  have hmain := countP_enumFrom_eq P t 0 i
  simp only [Nat.zero_add] at hmain
  exact hmain

/-! ### Claim C8 — `sku_format_normalized` trigger -/

theorem normalize_sku_cond (s : Str) (hs : pyStrip s = s) :
    (decide (s ≠ normalize_sku (.str s)) && !(normalize_sku (.str s)).isEmpty) =
      decide (normalize_sku (.str s) ≠ s) := by
  by_cases heq : normalize_sku (.str s) = s
  · simp [heq]
  · have hnil : normalize_sku (.str s) ≠ [] := by
      intro hnilEq
      simp only [normalize_sku, cellStr] at hnilEq
      by_cases hshape : skuShape (pyUpper (pyStrip s)) = true
      · rw [if_pos hshape] at hnilEq
        simp at hnilEq
      · rw [if_neg hshape] at hnilEq
        rw [hs] at hnilEq
        have hsNil : s = [] := by
          have := congrArg List.length hnilEq
          simp [pyUpper] at this
          exact this
        apply heq
        subst hsNil
        decide
    have hne : s ≠ normalize_sku (.str s) := fun h => heq h.symm
    simp [hne, heq, hnil]

/-- Claim C8, amended: a `sku_format_normalized` warning is emitted for a
row exactly when normalizing the row's whitespace-stripped SKU string
changes it (the source compares `normalize_sku` against the already
stripped original, so a change in surrounding whitespace alone emits no
issue); one issue per such row, always of that type at warning severity. -/
theorem C8_sku_format_issue_iff (t : Table) (source : SourceFile) (i : Nat) (r : Row)
    (hr : t[i]? = some r) :
    (check_sku_format t source).countP (fun iss => decide (iss.row_number = some (i + 1))) =
      (if normalize_sku (.str (pyStrip (cellStr r.sku))) ≠ pyStrip (cellStr r.sku)
       then 1 else 0)
    ∧ ∀ iss ∈ check_sku_format t source,
        iss.issue_type = .sku_format_normalized ∧ iss.severity = .warning := by
  constructor
  · simp only [check_sku_format]
    rw [countP_rowNumber_enum_filter_map t]
    · rw [hr]
      have hcond := normalize_sku_cond (pyStrip (cellStr r.sku)) (pyStrip_idem (cellStr r.sku))
      simp only [hcond]
      simp
    · intro p
      rfl
  · intro iss hiss
    simp only [check_sku_format, List.mem_map] at hiss
    obtain ⟨p, hp, rfl⟩ := hiss
    exact ⟨rfl, rfl⟩

/-- Claim C8 counterexample: for the row whose SKU cell is `" SKU-001 "`,
normalization changes the value (it strips the whitespace), yet
`check_sku_format` emits no issue, because the source compares against the
pre-stripped string. -/
theorem C8_counterexample :
    check_sku_format
        [{ sku := .str (strOf " SKU-001 "), name := .str (strOf "Widget"),
           quantity := .int 1, location := .str (strOf "A"),
           last_counted := .str (strOf "2024-01-01") }] .snapshot_1 = []
    ∧ normalize_sku (.str (strOf " SKU-001 ")) ≠ strOf " SKU-001 " := by
  constructor
  · decide
  · decide

/-- Witness for claim C8: the single-row table with SKU `"sku001"` gets
exactly one `sku_format_normalized` issue at row 1. -/
theorem C8_sku_format_issue_iff_witness :
    (check_sku_format
        [{ sku := .str (strOf "sku001"), name := .str (strOf "Widget"),
           quantity := .int 1, location := .str (strOf "A"),
           last_counted := .str (strOf "2024-01-01") }] .snapshot_1).countP
      (fun iss => decide (iss.row_number = some 1)) = 1 := by
  have h := (C8_sku_format_issue_iff
    [{ sku := .str (strOf "sku001"), name := .str (strOf "Widget"),
       quantity := .int 1, location := .str (strOf "A"),
       last_counted := .str (strOf "2024-01-01") }] .snapshot_1 0
    { sku := .str (strOf "sku001"), name := .str (strOf "Widget"),
      quantity := .int 1, location := .str (strOf "A"),
      last_counted := .str (strOf "2024-01-01") } rfl).1
  rw [h]
  decide

/-! ### Per-detector issue-type lemmas -/

theorem check_empty_file_types (t : Table) (s : SourceFile) :
    ∀ iss ∈ check_empty_file t s, iss.issue_type = .empty_file := by
  intro iss h
  unfold check_empty_file at h
  split at h
  · simp only [List.mem_singleton] at h
    subst h
    rfl
  · simp at h

theorem check_missing_columns_types (cols : List Str) (s : SourceFile) :
    ∀ iss ∈ check_missing_columns cols s, iss.issue_type = .missing_required_column := by
  intro iss h
  simp only [check_missing_columns, List.mem_map] at h
  obtain ⟨c, _, rfl⟩ := h
  rfl

theorem check_column_names_types (cols : List Str) (s : SourceFile) :
    ∀ iss ∈ check_column_names cols s, iss.issue_type = .column_name_mismatch := by
  intro iss h
  simp only [check_column_names, List.mem_map] at h
  obtain ⟨c, _, rfl⟩ := h
  rfl

theorem check_duplicates_types (t : Table) (s : SourceFile) :
    ∀ iss ∈ check_duplicates t s, iss.issue_type = .duplicate_key := by
  intro iss h
  simp only [check_duplicates, List.mem_map] at h
  obtain ⟨p, _, rfl⟩ := h
  rfl

theorem check_negative_quantities_types (t : Table) (s : SourceFile)
    (res : List DataQualityIssue) (h : check_negative_quantities t s = .ok res) :
    ∀ iss ∈ res, iss.issue_type = .negative_quantity := by
  intro iss hiss
  unfold check_negative_quantities at h
  split at h
  · simp at h
  · rename_i mask hmask
    cases h
    simp only [List.mem_map] at hiss
    obtain ⟨p, _, rfl⟩ := hiss
    rfl

theorem check_sku_format_types (t : Table) (s : SourceFile) :
    ∀ iss ∈ check_sku_format t s, iss.issue_type = .sku_format_normalized := by
  intro iss h
  simp only [check_sku_format, List.mem_map] at h
  obtain ⟨p, _, rfl⟩ := h
  rfl

theorem check_whitespace_types (t : Table) (s : SourceFile) :
    ∀ iss ∈ check_whitespace t s, iss.issue_type = .whitespace_trimmed := by
  intro iss h
  rcases List.mem_append.mp h with h1 | h1 <;>
  · simp only [whitespaceIssuesFor, List.mem_map] at h1
    obtain ⟨p, _, rfl⟩ := h1
    rfl

theorem check_date_format_types (t : Table) (s : SourceFile) :
    ∀ iss ∈ check_date_format t s, iss.issue_type = .date_format_inconsistent := by
  intro iss h
  simp only [check_date_format, List.mem_map] at h
  obtain ⟨p, _, rfl⟩ := h
  rfl

theorem check_name_drift_types (t1 t2 : Table) :
    ∀ iss ∈ check_name_drift t1 t2, iss.issue_type = .name_drift := by
  intro iss h
  simp only [check_name_drift, List.mem_filterMap] at h
  obtain ⟨p, _, heq⟩ := h
  split at heq
  · cases heq
    rfl
  · simp at heq

theorem check_date_regression_types (t1 t2 : Table) :
    ∀ iss ∈ check_date_regression t1 t2, iss.issue_type = .date_regression := by
  intro iss h
  simp only [check_date_regression, List.mem_filterMap] at h
  obtain ⟨p, _, heq⟩ := h
  split at heq
  · rename_i od nd _ _
    split at heq
    · cases heq
      rfl
    · simp at heq
  · simp at heq

theorem per_snapshot_checks_no_coerced (df : Table) (s : SourceFile)
    (res : List DataQualityIssue) (h : per_snapshot_checks df s = .ok res) :
    ∀ iss ∈ res, iss.issue_type ≠ .quantity_coerced := by
  intro iss hiss
  unfold per_snapshot_checks at h
  split at h
  · cases h
    simp at hiss
  · split at h
    · simp at h
    · rename_i neg hneg
      cases h
      intro hc
      simp only [List.mem_append] at hiss
      rcases hiss with ((((h1 | h2) | h3) | h4) | h5)
      · rw [check_duplicates_types df s iss h1] at hc
        cases hc
      · rw [check_negative_quantities_types df s neg hneg iss h2] at hc
        cases hc
      · rw [check_sku_format_types df s iss h3] at hc
        cases hc
      · rw [check_whitespace_types df s iss h4] at hc
        cases hc
      · rw [check_date_format_types df s iss h5] at hc
        cases hc

/-! ### Claim C1 — the battery never emits `quantity_coerced` -/

/-- Claim C1 (refuted by the code): `run_all_checks` — the entire battery —
contains no `quantity_coerced` detector, so no issue of that type ever
appears in its concatenated output, float-formatted raw quantities or not.
The loader's float-detection map is computed but never consumed by the
battery. -/
theorem C1_no_quantity_coerced (df1 df2 : Table) (m1 m2 mi1 mi2 : List Str)
    (issues : List DataQualityIssue)
    (h : run_all_checks df1 df2 m1 m2 mi1 mi2 = .ok issues) :
    ∀ iss ∈ issues, iss.issue_type ≠ .quantity_coerced := by
  intro iss hiss
  unfold run_all_checks at h
  split at h
  · simp at h
  · rename_i per1 hper1
    split at h
    · simp at h
    · rename_i per2 hper2
      cases h
      intro hc
      simp only [List.mem_append] at hiss
      rcases hiss with ((((((((h1 | h2) | h3) | h4) | h5) | h6) | h7) | h8) | h9)
      · rw [check_empty_file_types df1 .snapshot_1 iss h1] at hc
        cases hc
      · rw [check_empty_file_types df2 .snapshot_2 iss h2] at hc
        cases hc
      · rw [check_missing_columns_types mi1 .snapshot_1 iss h3] at hc
        cases hc
      · rw [check_missing_columns_types mi2 .snapshot_2 iss h4] at hc
        cases hc
      · rw [check_column_names_types m1 .snapshot_1 iss h5] at hc
        cases hc
      · rw [check_column_names_types m2 .snapshot_2 iss h6] at hc
        cases hc
      · exact per_snapshot_checks_no_coerced df1 .snapshot_1 per1 hper1 iss h7 hc
      · exact per_snapshot_checks_no_coerced df2 .snapshot_2 per2 hper2 iss h8 hc
      · split at h9
        · rcases List.mem_append.mp h9 with h10 | h10
          · rw [check_name_drift_types df1 df2 iss h10] at hc
            cases hc
          · rw [check_date_regression_types df1 df2 iss h10] at hc
            cases hc
        · simp at h9

/-- Witness for claim C1: a concrete battery run whose single issue (a
negative-quantity error) is not `quantity_coerced`. -/
theorem C1_no_quantity_coerced_witness :
    ({ issue_type := .negative_quantity, severity := .error, source_file := .snapshot_1,
       row_number := some 1, field := some (strOf "quantity"),
       original_value := some (strOf "-5"), normalized_value := none,
       description :=
         strOf "Negative quantity -5 for SKU SKU-001 at row 1" } :
      DataQualityIssue).issue_type ≠ .quantity_coerced :=
  C1_no_quantity_coerced
    [{ sku := .str (strOf "SKU-001"), name := .str (strOf "Widget"),
       quantity := .int (-5), location := .str (strOf "A"),
       last_counted := .str (strOf "2024-01-01") }]
    [{ sku := .str (strOf "SKU-001"), name := .str (strOf "Widget"),
       quantity := .int 5, location := .str (strOf "A"),
       last_counted := .str (strOf "2024-01-01") }]
    [] [] [] []
    [{ issue_type := .negative_quantity, severity := .error, source_file := .snapshot_1,
       row_number := some 1, field := some (strOf "quantity"),
       original_value := some (strOf "-5"), normalized_value := none,
       description := strOf "Negative quantity -5 for SKU SKU-001 at row 1" }]
    (by decide) _ (List.mem_singleton.mpr rfl)

/-! ### Evaluation of the normalizer -/

theorem normalize_dataframe_fst (t : Table) :
    (normalize_dataframe t).1 =
      t.map (fun r =>
        { sku := .str (normalize_sku r.sku), name := .str (normalize_name r.name),
          quantity := .int ((toNumericCell r.quantity).getD 0),
          location := .str (normalize_location r.location),
          last_counted := r.last_counted }) := by
  simp only [normalize_dataframe, normalize_dataframe_heap, allocH, writeH, readH,
    List.cons_append, List.nil_append, List.length_cons, List.length_nil,
    List.getD_cons_zero, List.getD_cons_succ, List.set_cons_succ, List.set_cons_zero,
    List.map_map]
  exact List.map_congr_left (fun r _ => rfl)

theorem normalize_dataframe_quantity_int (t : Table) :
    ∀ r ∈ (normalize_dataframe t).1, ∃ z, r.quantity = Cell.int z := by
  intro r hr
  rw [normalize_dataframe_fst] at hr
  simp only [List.mem_map] at hr
  obtain ⟨r0, _, rfl⟩ := hr
  exact ⟨(toNumericCell r0.quantity).getD 0, rfl⟩

/-! ### Claim C5 — malformed-data behavior of normalizer and reconciler -/

/-- Claim C5 (code bug in the reconciler half): the Normalizer does coerce
a non-numeric or missing quantity to integer zero, but the Reconciler's
empty-frame branch calls raw `int(row["quantity"])`, so reconciling an
empty first snapshot against a row whose quantity is missing raises a
`ValueError` instead of treating the quantity as absent. -/
theorem C5_malformed_quantity_handling :
    (∀ (t : Table) (i : Nat) (r : Row), t[i]? = some r →
        toNumericCell r.quantity = none →
        ((normalize_dataframe t).1[i]?).map (fun x => x.quantity) = some (Cell.int 0))
    ∧ reconcile []
        [{ sku := .str (strOf "SKU-001"), name := .str (strOf "Widget"),
           quantity := .na, location := .str (strOf "A"),
           last_counted := .str (strOf "2024-01-01") }] =
      .error (strOf "ValueError") := by
  constructor
  · intro t i r hr hnone
    rw [normalize_dataframe_fst, List.getElem?_map, hr]
    simp [hnone]
  · decide

/-- Witness for claim C5: the normalizer sends the unparseable quantity
`"abc"` to integer zero. -/
theorem C5_malformed_quantity_handling_witness :
    ((normalize_dataframe
        [{ sku := .str (strOf "SKU-001"), name := .str (strOf "Widget"),
           quantity := .str (strOf "abc"), location := .str (strOf "A"),
           last_counted := .str (strOf "2024-01-01") }]).1[0]?).map
      (fun x => x.quantity) = some (Cell.int 0) :=
  C5_malformed_quantity_handling.1
    [{ sku := .str (strOf "SKU-001"), name := .str (strOf "Widget"),
       quantity := .str (strOf "abc"), location := .str (strOf "A"),
       last_counted := .str (strOf "2024-01-01") }] 0
    { sku := .str (strOf "SKU-001"), name := .str (strOf "Widget"),
      quantity := .str (strOf "abc"), location := .str (strOf "A"),
      last_counted := .str (strOf "2024-01-01") } rfl (by decide)

/-! ### Claim C9 — the normalizer never mutates its input -/

theorem readH_writeH_ne (h : Heap) (r r' : Nat) (x : Table) (hne : r ≠ r') :
    readH (writeH h r x) r' = readH h r' := by
  unfold readH writeH
  rw [List.getD_eq_getElem?_getD, List.getD_eq_getElem?_getD, List.getElem?_set_ne hne]

theorem readH_append_lt (h : Heap) (t : Table) (r : Nat) (hr : r < h.length) :
    readH (h ++ [t]) r = readH h r := by
  unfold readH
  rw [List.getD_eq_getElem?_getD, List.getD_eq_getElem?_getD,
    List.getElem?_append_left hr]

/-- Claim C9: running the normalizer on a DataFrame reference leaves the
referenced table unchanged (`df.copy()` allocates and every later write
targets the copy), and the returned table is a fresh reference, not an
alias of the input. -/
theorem C9_normalizer_no_mutation (h : Heap) (df : Nat) (hdf : df < h.length) :
    readH (normalize_dataframe_heap h df).1.1 df = readH h df
    ∧ (normalize_dataframe_heap h df).1.2 ≠ df := by
  have hne : h.length ≠ df := by omega
  constructor
  · show readH
      (writeH (writeH (writeH (writeH (h ++ [readH h df]) h.length _) h.length _)
        h.length _) h.length _) df = readH h df
    rw [readH_writeH_ne _ _ _ _ hne, readH_writeH_ne _ _ _ _ hne,
      readH_writeH_ne _ _ _ _ hne, readH_writeH_ne _ _ _ _ hne,
      readH_append_lt _ _ _ hdf]
  · exact hne

/-- Witness for claim C9 on a one-object heap. -/
theorem C9_normalizer_no_mutation_witness :
    readH (normalize_dataframe_heap [([] : Table)] 0).1.1 0 = readH [([] : Table)] 0
    ∧ (normalize_dataframe_heap [([] : Table)] 0).1.2 ≠ 0 :=
  C9_normalizer_no_mutation [([] : Table)] 0 (by decide)

/-! ### Key-uniqueness infrastructure for the reconciler -/

theorem keyCount_cons (r : Row) (t : Table) (k : Cell × Cell) :
    keyCount (r :: t) k = keyCount t k + (if rowKey r = k then 1 else 0) := by
  unfold keyCount
  rw [List.countP_cons]
  simp

theorem keyCount_le_of_cons (r : Row) (t : Table)
    (hu : ∀ k, keyCount (r :: t) k ≤ 1) : ∀ k, keyCount t k ≤ 1 := by
  intro k
  have h := hu k
  rw [keyCount_cons] at h
  by_cases hk : rowKey r = k <;> simp [hk] at h <;> omega

theorem filter_key_unique (k : Cell × Cell) :
    ∀ (t : Table), (∀ k', keyCount t k' ≤ 1) →
      t.filter (fun r => decide (rowKey r = k)) = (lookupKey t k).toList := by
  intro t
  induction t with
  | nil => intro _; rfl
  | cons r t ih =>
    intro hu
    by_cases hk : rowKey r = k
    · have hcount := hu k
      rw [keyCount_cons, if_pos hk] at hcount
      have hzero : keyCount t k = 0 := by omega
      have hfilter : t.filter (fun x => decide (rowKey x = k)) = [] := by
        apply List.filter_eq_nil_iff.mpr
        intro a ha
        unfold keyCount at hzero
        have := List.countP_eq_zero.mp hzero a ha
        simpa using this
      rw [List.filter_cons, if_pos (by simpa using hk), hfilter]
      unfold lookupKey
      rw [List.find?_cons_of_pos _ (by simpa using hk)]
      rfl
    · rw [List.filter_cons, if_neg (by simpa using hk)]
      unfold lookupKey
      rw [List.find?_cons_of_neg _ (by simpa using hk)]
      exact ih (keyCount_le_of_cons r t hu)

theorem filter_mergedKey_flatMap (f : Row → List MergedRow)
    (hf : ∀ r1 m, m ∈ f r1 → mergedKey m = rowKey r1) (k : Cell × Cell) :
    ∀ (t1 : Table), (∀ k', keyCount t1 k' ≤ 1) →
      (t1.flatMap f).filter (fun m => decide (mergedKey m = k)) =
        (match lookupKey t1 k with
         | some r1 => f r1
         | none => []) := by
  intro t1
  induction t1 with
  | nil => intro _; rfl
  | cons r t ih =>
    intro hu
    rw [List.flatMap_cons, List.filter_append]
    by_cases hk : rowKey r = k
    · have hhead : (f r).filter (fun m => decide (mergedKey m = k)) = f r := by
        apply List.filter_eq_self.mpr
        intro m hm
        simp [hf r m hm, hk]
      have hcount := hu k
      rw [keyCount_cons, if_pos hk] at hcount
      have hzero : keyCount t k = 0 := by omega
      have htail : (t.flatMap f).filter (fun m => decide (mergedKey m = k)) = [] := by
        apply List.filter_eq_nil_iff.mpr
        intro m hm
        obtain ⟨r2, hr2, hmr2⟩ := List.mem_flatMap.mp hm
        have hne : ¬ rowKey r2 = k := by
          unfold keyCount at hzero
          have := List.countP_eq_zero.mp hzero r2 hr2
          simpa using this
        simp [hf r2 m hmr2, hne]
      rw [hhead, htail]
      unfold lookupKey
      rw [List.find?_cons_of_pos _ (by simpa using hk)]
      simp
    · have hhead : (f r).filter (fun m => decide (mergedKey m = k)) = [] := by
        apply List.filter_eq_nil_iff.mpr
        intro m hm
        simp [hf r m hm, hk]
      rw [hhead, List.nil_append]
      unfold lookupKey
      rw [List.find?_cons_of_neg _ (by simpa using hk)]
      exact ih (keyCount_le_of_cons r t hu)

theorem filter_rightOnly_part (t1 t2 : Table) (hu2 : ∀ k', keyCount t2 k' ≤ 1)
    (k : Cell × Cell) :
    ((t2.filter (fun r2 => !t1.any (fun r1 => decide (rowKey r1 = rowKey r2)))).map
        MergedRow.rightOnly).filter (fun m => decide (mergedKey m = k)) =
      (match lookupKey t1 k with
       | some _ => []
       | none => (lookupKey t2 k).toList.map MergedRow.rightOnly) := by
  rw [List.filter_map, List.filter_filter]
  cases hl1 : lookupKey t1 k with
  | some r1 =>
    have hr1 : r1 ∈ t1 ∧ rowKey r1 = k := by
      refine ⟨List.mem_of_find?_eq_some hl1, ?_⟩
      have := List.find?_some hl1
      simpa using this
    have : t2.filter
        (fun r2 => ((fun m => decide (mergedKey m = k)) ∘ MergedRow.rightOnly) r2
          && !t1.any (fun r1 => decide (rowKey r1 = rowKey r2))) = [] := by
      apply List.filter_eq_nil_iff.mpr
      intro r2 _ hcontra
      simp only [Function.comp_apply, mergedKey, Bool.and_eq_true, decide_eq_true_eq,
        Bool.not_eq_true', List.any_eq_false, decide_eq_true_eq] at hcontra
      exact hcontra.2 r1 hr1.1 (by rw [hr1.2, hcontra.1])
    rw [this]
    rfl
  | none =>
    have hnone : ∀ r ∈ t1, ¬ rowKey r = k := by
      intro r hr
      have := List.find?_eq_none.mp hl1 r hr
      simpa using this
    have hcongr : t2.filter
        (fun r2 => ((fun m => decide (mergedKey m = k)) ∘ MergedRow.rightOnly) r2
          && !t1.any (fun r1 => decide (rowKey r1 = rowKey r2))) =
        t2.filter (fun r2 => decide (rowKey r2 = k)) := by
      apply List.filter_congr
      intro r2 _
      simp only [Function.comp_apply, mergedKey]
      by_cases hk2 : rowKey r2 = k
      · have hany : t1.any (fun r1 => decide (rowKey r1 = rowKey r2)) = false := by
          apply List.any_eq_false.mpr
          intro r1 hr1
          rw [hk2]
          simpa using hnone r1 hr1
        rw [hany]
        simp [hk2]
      · simp [hk2]
    rw [hcongr, filter_key_unique k t2 hu2]

theorem mergeOuter_filter_key (t1 t2 : Table) (hu1 : ∀ k', keyCount t1 k' ≤ 1)
    (hu2 : ∀ k', keyCount t2 k' ≤ 1) (k : Cell × Cell) :
    (mergeOuter t1 t2).filter (fun m => decide (mergedKey m = k)) =
      (match lookupKey t1 k, lookupKey t2 k with
       | some r1, some r2 => [MergedRow.both r1 r2]
       | some r1, none => [MergedRow.leftOnly r1]
       | none, some r2 => [MergedRow.rightOnly r2]
       | none, none => []) := by
  have hf : ∀ r1 m,
      m ∈ (let ms := t2.filter (fun r2 => decide (rowKey r2 = rowKey r1))
           if ms.isEmpty then [MergedRow.leftOnly r1] else ms.map (MergedRow.both r1)) →
      mergedKey m = rowKey r1 := by
    intro r1 m hm
    simp only at hm
    split at hm
    · rw [List.mem_singleton] at hm
      subst hm
      rfl
    · obtain ⟨r2, _, rfl⟩ := List.mem_map.mp hm
      rfl
  unfold mergeOuter
  rw [List.filter_append, filter_mergedKey_flatMap _ hf k t1 hu1,
    filter_rightOnly_part t1 t2 hu2 k]
  cases hl1 : lookupKey t1 k with
  | none =>
    cases hl2 : lookupKey t2 k with
    | none => rfl
    | some r2 => rfl
  | some r1 =>
    have hk1 : rowKey r1 = k := by
      have := List.find?_some hl1
      simpa using this
    have hms : t2.filter (fun r2 => decide (rowKey r2 = rowKey r1)) =
        (lookupKey t2 k).toList := by
      rw [hk1, filter_key_unique k t2 hu2]
    cases hl2 : lookupKey t2 k with
    | none =>
      rw [hl2] at hms
      simp only [hms]
      rfl
    | some r2 =>
      rw [hl2] at hms
      simp only [hms]
      rfl

/-! ### Reducing `reconcile` to classified merge rows -/

theorem addedResult_int (r : Row) (z : Int) (hz : r.quantity = Cell.int z) :
    addedResult r = .ok (classifyMerged (.rightOnly r)) := by
  obtain ⟨s, n, q, l, c⟩ := r
  dsimp only at hz
  subst hz
  rfl

theorem removedResult_int (r : Row) (z : Int) (hz : r.quantity = Cell.int z) :
    removedResult r = .ok (classifyMerged (.leftOnly r)) := by
  obtain ⟨s, n, q, l, c⟩ := r
  dsimp only at hz
  subst hz
  rfl

theorem mapM_addedResult_int :
    ∀ (t : Table), (∀ r ∈ t, (r.quantity).isInt = true) →
      t.mapM addedResult = .ok (t.map (fun r => classifyMerged (.rightOnly r))) := by
  intro t
  induction t with
  | nil => intro _; rfl
  | cons r t ih =>
    intro hq
    have hz : ∃ z, r.quantity = Cell.int z := by
      have := hq r (by simp)
      cases hcell : r.quantity <;> rw [hcell] at this <;> simp [Cell.isInt] at this ⊢
    obtain ⟨z, hz⟩ := hz
    rw [List.mapM_cons, addedResult_int r z hz, ih (fun r' h' => hq r' (by simp [h']))]
    rfl

theorem mapM_removedResult_int :
    ∀ (t : Table), (∀ r ∈ t, (r.quantity).isInt = true) →
      t.mapM removedResult = .ok (t.map (fun r => classifyMerged (.leftOnly r))) := by
  intro t
  induction t with
  | nil => intro _; rfl
  | cons r t ih =>
    intro hq
    have hz : ∃ z, r.quantity = Cell.int z := by
      have := hq r (by simp)
      cases hcell : r.quantity <;> rw [hcell] at this <;> simp [Cell.isInt] at this ⊢
    obtain ⟨z, hz⟩ := hz
    rw [List.mapM_cons, removedResult_int r z hz, ih (fun r' h' => hq r' (by simp [h']))]
    rfl

theorem reconcile_eq_merge (t1 t2 : Table)
    (hq1 : ∀ r ∈ t1, (r.quantity).isInt = true)
    (hq2 : ∀ r ∈ t2, (r.quantity).isInt = true) :
    reconcile t1 t2 = .ok ((mergeOuter t1 t2).map classifyMerged) := by
  cases t1 with
  | nil =>
    cases t2 with
    | nil => rfl
    | cons r2 t2' =>
      show (r2 :: t2').mapM addedResult = _
      rw [mapM_addedResult_int (r2 :: t2') hq2]
      unfold mergeOuter
      rw [List.flatMap_nil, List.nil_append]
      have hfilter : (r2 :: t2').filter
          (fun r => !([] : Table).any (fun r1 => decide (rowKey r1 = rowKey r))) =
          r2 :: t2' := by
        apply List.filter_eq_self.mpr
        intro a _
        rfl
      rw [hfilter, List.map_map]
      rfl
  | cons r1 t1' =>
    cases t2 with
    | nil =>
      show (r1 :: t1').mapM removedResult = _
      rw [mapM_removedResult_int (r1 :: t1') hq1]
      unfold mergeOuter
      have hflat : ∀ (l : Table),
          l.flatMap
            (fun r =>
              let ms := ([] : Table).filter (fun r2 => decide (rowKey r2 = rowKey r))
              if ms.isEmpty then [MergedRow.leftOnly r] else ms.map (MergedRow.both r)) =
          l.map MergedRow.leftOnly := by
        intro l
        induction l with
        | nil => rfl
        | cons a l ih =>
          rw [List.flatMap_cons, ih]
          rfl
      rw [hflat]
      simp [List.map_map]
    | cons r2 t2' => rfl

theorem classifyMerged_key (m : MergedRow) :
    ((classifyMerged m).sku, (classifyMerged m).location) = mergedKey m := by
  cases m with
  | leftOnly r1 => rfl
  | rightOnly r2 => rfl
  | both r1 r2 =>
    unfold classifyMerged mergedKey
    by_cases hq : safe_int r1.quantity = safe_int r2.quantity
    · simp [hq, rowKey]
    · simp [hq, rowKey]

/-- Master characterization: with unique keys and integer quantities on
both sides, the multiset of results `reconcile` emits for a key is exactly
the classification of the per-table lookups. -/
theorem reconcile_filter_key (t1 t2 : Table)
    (hu1 : ∀ k', keyCount t1 k' ≤ 1) (hu2 : ∀ k', keyCount t2 k' ≤ 1)
    (hq1 : ∀ r ∈ t1, (r.quantity).isInt = true)
    (hq2 : ∀ r ∈ t2, (r.quantity).isInt = true)
    (rs : List ReconciliationResult) (h : reconcile t1 t2 = .ok rs)
    (k : Cell × Cell) :
    rs.filter (fun r => decide ((r.sku, r.location) = k)) =
      (match lookupKey t1 k, lookupKey t2 k with
       | some r1, some r2 => [classifyMerged (.both r1 r2)]
       | some r1, none => [classifyMerged (.leftOnly r1)]
       | none, some r2 => [classifyMerged (.rightOnly r2)]
       | none, none => []) := by
  rw [reconcile_eq_merge t1 t2 hq1 hq2] at h
  cases h
  rw [List.filter_map]
  have hcomp : ((fun r : ReconciliationResult => decide ((r.sku, r.location) = k))
      ∘ classifyMerged) = fun m => decide (mergedKey m = k) := by
    funext m
    simp [Function.comp_apply, classifyMerged_key m]
  rw [hcomp, mergeOuter_filter_key t1 t2 hu1 hu2 k]
  cases lookupKey t1 k <;> cases lookupKey t2 k <;> rfl

theorem keyCount_le_one_of_nodup :
    ∀ (t : Table), (t.map rowKey).Nodup → ∀ k, keyCount t k ≤ 1 := by
  intro t
  induction t with
  | nil =>
    intro _ k
    simp [keyCount]
  | cons r t ih =>
    intro h k
    rw [List.map_cons, List.nodup_cons] at h
    obtain ⟨hnotin, hnd⟩ := h
    rw [keyCount_cons]
    by_cases hk : rowKey r = k
    · have hzero : keyCount t k = 0 := by
        unfold keyCount
        apply List.countP_eq_zero.mpr
        intro a ha
        simp only [decide_eq_true_eq]
        intro heq
        exact hnotin (by rw [hk, ← heq]; exact List.mem_map_of_mem rowKey ha)
      rw [if_pos hk, hzero]
    · rw [if_neg hk]
      have := ih hnd k
      omega

theorem isInt_exists {c : Cell} (h : c.isInt = true) : ∃ z, c = Cell.int z := by
  cases c <;> simp [Cell.isInt] at h ⊢

theorem mem_mergeOuter (t1 t2 : Table) (m : MergedRow) (hm : m ∈ mergeOuter t1 t2) :
    (∃ r1 ∈ t1, m = .leftOnly r1) ∨ (∃ r2 ∈ t2, m = .rightOnly r2)
    ∨ (∃ r1 ∈ t1, ∃ r2 ∈ t2, m = .both r1 r2) := by
  unfold mergeOuter at hm
  rcases List.mem_append.mp hm with h1 | h2
  · obtain ⟨r1, hr1, hmem⟩ := List.mem_flatMap.mp h1
    simp only at hmem
    split at hmem
    · rw [List.mem_singleton] at hmem
      exact Or.inl ⟨r1, hr1, hmem⟩
    · obtain ⟨r2, hr2, rfl⟩ := List.mem_map.mp hmem
      exact Or.inr (Or.inr ⟨r1, hr1, r2, List.mem_of_mem_filter hr2, rfl⟩)
  · obtain ⟨r2, hr2, rfl⟩ := List.mem_map.mp h2
    exact Or.inr (Or.inl ⟨r2, List.mem_of_mem_filter hr2, rfl⟩)

/-! ### Claim C3 — presence invariant of reconciliation results -/

/-- Claim C3 counterexample: with unconvertible quantities on both sides
of a shared key, `_safe_int` yields `None` twice, `None == None` makes the
status `unchanged`, and the emitted result has BOTH quantities absent and
`quantity_delta` populated with 0. -/
theorem C3_counterexample :
    reconcile
      [{ sku := .str (strOf "SKU-001"), name := .str (strOf "Widget"),
         quantity := .str (strOf "abc"), location := .str (strOf "A"),
         last_counted := .str (strOf "2024-01-01") }]
      [{ sku := .str (strOf "SKU-001"), name := .str (strOf "Widget"),
         quantity := .str (strOf "xyz"), location := .str (strOf "A"),
         last_counted := .str (strOf "2024-01-01") }] =
    .ok [{ sku := .str (strOf "SKU-001"), location := .str (strOf "A"),
           status := .unchanged, old_quantity := none, new_quantity := none,
           quantity_delta := some 0, old_name := some (.str (strOf "Widget")),
           new_name := some (.str (strOf "Widget")) }] := by
  decide

/-- Claim C3, amended: for tables whose quantity cells are all integers
(as every post-normalization table is), at most one of
`old_quantity`/`new_quantity` is absent — never both — and
`quantity_delta` is populated only when both are present. -/
theorem C3_result_invariant (t1 t2 : Table)
    (hq1 : ∀ r ∈ t1, (r.quantity).isInt = true)
    (hq2 : ∀ r ∈ t2, (r.quantity).isInt = true)
    (rs : List ReconciliationResult) (h : reconcile t1 t2 = .ok rs) :
    ∀ r ∈ rs, ¬(r.old_quantity = none ∧ r.new_quantity = none)
      ∧ (r.quantity_delta ≠ none → r.old_quantity ≠ none ∧ r.new_quantity ≠ none) := by
  rw [reconcile_eq_merge t1 t2 hq1 hq2] at h
  cases h
  intro r hr
  obtain ⟨m, hm, rfl⟩ := List.mem_map.mp hr
  rcases mem_mergeOuter t1 t2 m hm with ⟨r1, hr1, rfl⟩ | ⟨r2, hr2, rfl⟩ | ⟨r1, hr1, r2, hr2, rfl⟩
  · obtain ⟨z, hz⟩ := isInt_exists (hq1 r1 hr1)
    constructor
    · simp [classifyMerged, safe_int, intCell, hz, Except.toOption]
    · intro hd
      simp [classifyMerged] at hd
  · obtain ⟨z, hz⟩ := isInt_exists (hq2 r2 hr2)
    constructor
    · simp [classifyMerged, safe_int, intCell, hz, Except.toOption]
    · intro hd
      simp [classifyMerged] at hd
  · obtain ⟨z1, hz1⟩ := isInt_exists (hq1 r1 hr1)
    obtain ⟨z2, hz2⟩ := isInt_exists (hq2 r2 hr2)
    have hold : safe_int r1.quantity = some z1 := by rw [hz1]; rfl
    have hnew : safe_int r2.quantity = some z2 := by rw [hz2]; rfl
    by_cases hz12 : z1 = z2
    · constructor
      · simp [classifyMerged, hold, hnew, hz12]
      · intro _
        simp [classifyMerged, hold, hnew, hz12]
    · constructor
      · simp [classifyMerged, hold, hnew, hz12]
      · intro _
        simp [classifyMerged, hold, hnew, hz12]

/-- Witness for claim C3 on integer-quantity snapshots. -/
theorem C3_result_invariant_witness :
    ¬(({ sku := .str (strOf "SKU-001"), location := .str (strOf "A"),
         status := .quantity_changed, old_quantity := some 100,
         new_quantity := some 95, quantity_delta := some (-5),
         old_name := some (.str (strOf "Widget")),
         new_name := some (.str (strOf "Widget")) } :
        ReconciliationResult).old_quantity = none
      ∧ ({ sku := .str (strOf "SKU-001"), location := .str (strOf "A"),
           status := .quantity_changed, old_quantity := some 100,
           new_quantity := some 95, quantity_delta := some (-5),
           old_name := some (.str (strOf "Widget")),
           new_name := some (.str (strOf "Widget")) } :
          ReconciliationResult).new_quantity = none) := by
  have h := C3_result_invariant
    [{ sku := .str (strOf "SKU-001"), name := .str (strOf "Widget"),
       quantity := .int 100, location := .str (strOf "A"),
       last_counted := .str (strOf "2024-01-01") }]
    [{ sku := .str (strOf "SKU-001"), name := .str (strOf "Widget"),
       quantity := .int 95, location := .str (strOf "A"),
       last_counted := .str (strOf "2024-01-01") }]
    (by decide) (by decide)
    [{ sku := .str (strOf "SKU-001"), location := .str (strOf "A"),
       status := .quantity_changed, old_quantity := some 100,
       new_quantity := some 95, quantity_delta := some (-5),
       old_name := some (.str (strOf "Widget")),
       new_name := some (.str (strOf "Widget")) }]
    (by decide)
  exact (h _ (List.mem_singleton.mpr rfl)).1

/-! ### Claim C4 — full-outer-join classification -/

/-- Claim C4: for duplicate-filtered tables (unique composite keys) that
are normalized (integer quantities), the Reconciler emits exactly one
result per distinct composite key of the union of both key sets, and that
result is classified per the contract: `removed` with old fields populated
and new fields absent when the key is only in table 1, `added`
symmetrically, `unchanged` with delta 0 when the quantities agree,
`quantity_changed` with delta `new − old` when they differ. -/
theorem C4_reconcile_classification (t1 t2 : Table)
    (hu1 : (t1.map rowKey).Nodup) (hu2 : (t2.map rowKey).Nodup)
    (hq1 : ∀ r ∈ t1, (r.quantity).isInt = true)
    (hq2 : ∀ r ∈ t2, (r.quantity).isInt = true)
    (rs : List ReconciliationResult) (h : reconcile t1 t2 = .ok rs)
    (k : Cell × Cell) :
    rs.countP (fun r => decide ((r.sku, r.location) = k)) =
      (if (lookupKey t1 k).isSome || (lookupKey t2 k).isSome then 1 else 0)
    ∧ rs.filter (fun r => decide ((r.sku, r.location) = k)) =
      (match lookupKey t1 k, lookupKey t2 k with
       | none, none => []
       | some r1, none =>
         [{ sku := r1.sku, location := r1.location, status := .removed,
            old_quantity := safe_int r1.quantity, new_quantity := none,
            quantity_delta := none, old_name := some r1.name, new_name := none }]
       | none, some r2 =>
         [{ sku := r2.sku, location := r2.location, status := .added,
            old_quantity := none, new_quantity := safe_int r2.quantity,
            quantity_delta := none, old_name := none, new_name := some r2.name }]
       | some r1, some r2 =>
         if safe_int r1.quantity = safe_int r2.quantity then
           [{ sku := r1.sku, location := r1.location, status := .unchanged,
              old_quantity := safe_int r1.quantity,
              new_quantity := safe_int r2.quantity, quantity_delta := some 0,
              old_name := some r1.name, new_name := some r2.name }]
         else
           [{ sku := r1.sku, location := r1.location, status := .quantity_changed,
              old_quantity := safe_int r1.quantity,
              new_quantity := safe_int r2.quantity,
              quantity_delta :=
                (match safe_int r1.quantity, safe_int r2.quantity with
                 | some o, some n => some (n - o)
                 | _, _ => none),
              old_name := some r1.name, new_name := some r2.name }])
    ∧ (∀ r1, lookupKey t1 k = some r1 → (safe_int r1.quantity).isSome = true)
    ∧ (∀ r2, lookupKey t2 k = some r2 → (safe_int r2.quantity).isSome = true) := by
  have hu1' := keyCount_le_one_of_nodup t1 hu1
  have hu2' := keyCount_le_one_of_nodup t2 hu2
  have hfilter := reconcile_filter_key t1 t2 hu1' hu2' hq1 hq2 rs h k
  refine ⟨?_, ?_, ?_, ?_⟩
  · rw [List.countP_eq_length_filter, hfilter]
    cases hl1 : lookupKey t1 k <;> cases hl2 : lookupKey t2 k
    · rfl
    · rfl
    · rfl
    · rename_i r1 r2
      by_cases hsq : safe_int r1.quantity = safe_int r2.quantity <;>
        simp [classifyMerged, hsq]
  · rw [hfilter]
    cases hl1 : lookupKey t1 k <;> cases hl2 : lookupKey t2 k
    · rfl
    · rfl
    · rfl
    · rename_i r1 r2
      by_cases hsq : safe_int r1.quantity = safe_int r2.quantity <;>
        simp [classifyMerged, hsq]
  · intro r1 hl1
    obtain ⟨z, hz⟩ :=
      isInt_exists (hq1 r1 (List.mem_of_find?_eq_some hl1))
    rw [hz]
    rfl
  · intro r2 hl2
    obtain ⟨z, hz⟩ :=
      isInt_exists (hq2 r2 (List.mem_of_find?_eq_some hl2))
    rw [hz]
    rfl

/-- Witness for claim C4: a shared key with quantities 100 and 95 yields
exactly one result, classified `quantity_changed` with delta −5. -/
theorem C4_reconcile_classification_witness :
    ([{ sku := .str (strOf "SKU-001"), location := .str (strOf "A"),
        status := .quantity_changed, old_quantity := some 100,
        new_quantity := some 95, quantity_delta := some (-5),
        old_name := some (.str (strOf "Widget")),
        new_name := some (.str (strOf "Widget")) }] :
      List ReconciliationResult).countP
      (fun r => decide ((r.sku, r.location) =
        ((.str (strOf "SKU-001") : Cell), (.str (strOf "A") : Cell)))) = 1 := by
  have h := (C4_reconcile_classification
    [{ sku := .str (strOf "SKU-001"), name := .str (strOf "Widget"),
       quantity := .int 100, location := .str (strOf "A"),
       last_counted := .str (strOf "2024-01-01") }]
    [{ sku := .str (strOf "SKU-001"), name := .str (strOf "Widget"),
       quantity := .int 95, location := .str (strOf "A"),
       last_counted := .str (strOf "2024-01-01") }]
    (by decide) (by decide) (by decide) (by decide)
    [{ sku := .str (strOf "SKU-001"), location := .str (strOf "A"),
       status := .quantity_changed, old_quantity := some 100,
       new_quantity := some 95, quantity_delta := some (-5),
       old_name := some (.str (strOf "Widget")),
       new_name := some (.str (strOf "Widget")) }]
    (by decide)
    ((.str (strOf "SKU-001") : Cell), (.str (strOf "A") : Cell))).1
  rw [h]
  decide

/-! ### Duplicate-key bookkeeping for the pipeline -/

theorem check_duplicates_fields (t : Table) (s : SourceFile) :
    ∀ iss ∈ check_duplicates t s, iss.source_file = s ∧ iss.severity = .error := by
  intro iss h
  simp only [check_duplicates, List.mem_map] at h
  obtain ⟨p, _, rfl⟩ := h
  exact ⟨rfl, rfl⟩

theorem countP_dup_zero_of_types {l : List DataQualityIssue} {i : Nat}
    {s : SourceFile} (h : ∀ iss ∈ l, ¬ iss.issue_type = .duplicate_key) :
    l.countP (fun iss => decide (iss.issue_type = .duplicate_key
      ∧ iss.source_file = s ∧ iss.row_number = some (i + 1))) = 0 := by
  apply List.countP_eq_zero.mpr
  intro iss hiss
  simp only [decide_eq_true_eq, not_and]
  intro ht
  exact absurd ht (h iss hiss)

theorem countP_dup_zero_of_src_ne {l : List DataQualityIssue} {i : Nat}
    {s s' : SourceFile} (hne : ¬ s' = s)
    (h : ∀ iss ∈ l, iss.issue_type = .duplicate_key → iss.source_file = s') :
    l.countP (fun iss => decide (iss.issue_type = .duplicate_key
      ∧ iss.source_file = s ∧ iss.row_number = some (i + 1))) = 0 := by
  apply List.countP_eq_zero.mpr
  intro iss hiss
  simp only [decide_eq_true_eq, not_and]
  intro ht hs
  rw [h iss hiss ht] at hs
  exact fun _ => hne hs

theorem per_snapshot_checks_ok_decomp (df : Table) (s : SourceFile)
    (res : List DataQualityIssue) (h : per_snapshot_checks df s = .ok res) :
    (df.isEmpty = true ∧ res = [])
    ∨ (df.isEmpty = false ∧ ∃ neg, check_negative_quantities df s = .ok neg
        ∧ res = check_duplicates df s ++ neg ++ check_sku_format df s
          ++ check_whitespace df s ++ check_date_format df s) := by
  unfold per_snapshot_checks at h
  split at h
  · cases h
    rename_i hemp
    exact Or.inl ⟨hemp, rfl⟩
  · rename_i hemp
    split at h
    · simp at h
    · cases h
      rename_i neg hneg
      exact Or.inr ⟨by simpa using hemp, neg, hneg, rfl⟩

theorem run_all_checks_ok_decomp (df1 df2 : Table) (m1 m2 mi1 mi2 : List Str)
    (issues : List DataQualityIssue)
    (h : run_all_checks df1 df2 m1 m2 mi1 mi2 = .ok issues) :
    ∃ per1 per2, per_snapshot_checks df1 .snapshot_1 = .ok per1
      ∧ per_snapshot_checks df2 .snapshot_2 = .ok per2
      ∧ issues = (check_empty_file df1 .snapshot_1 ++ check_empty_file df2 .snapshot_2
          ++ check_missing_columns mi1 .snapshot_1
          ++ check_missing_columns mi2 .snapshot_2
          ++ check_column_names m1 .snapshot_1 ++ check_column_names m2 .snapshot_2)
          ++ per1 ++ per2
          ++ (if !df1.isEmpty && !df2.isEmpty then
                check_name_drift df1 df2 ++ check_date_regression df1 df2
              else []) := by
  unfold run_all_checks at h
  split at h
  · simp at h
  · rename_i per1 hper1
    split at h
    · simp at h
    · rename_i per2 hper2
      cases h
      exact ⟨per1, per2, hper1, hper2, rfl⟩

theorem per_snapshot_dup_fields (df : Table) (s : SourceFile)
    (res : List DataQualityIssue) (h : per_snapshot_checks df s = .ok res) :
    ∀ iss ∈ res, iss.issue_type = .duplicate_key →
      iss.source_file = s ∧ iss.severity = .error := by
  intro iss hiss ht
  rcases per_snapshot_checks_ok_decomp df s res h with ⟨_, rfl⟩ | ⟨_, neg, hneg, rfl⟩
  · simp at hiss
  · simp only [List.mem_append] at hiss
    rcases hiss with ((((h1 | h2) | h3) | h4) | h5)
    · exact check_duplicates_fields df s iss h1
    · exact absurd ht (by rw [check_negative_quantities_types df s neg hneg iss h2]; decide)
    · exact absurd ht (by rw [check_sku_format_types df s iss h3]; decide)
    · exact absurd ht (by rw [check_whitespace_types df s iss h4]; decide)
    · exact absurd ht (by rw [check_date_format_types df s iss h5]; decide)

theorem countP_dup_check_duplicates (t : Table) (s : SourceFile) (i : Nat) (r : Row)
    (hir : t[i]? = some r) :
    (check_duplicates t s).countP
      (fun iss => decide (iss.issue_type = .duplicate_key
        ∧ iss.source_file = s ∧ iss.row_number = some (i + 1))) =
      (if 2 ≤ keyCount t (rowKey r) then 1 else 0) := by
  have hcongr : ∀ iss ∈ check_duplicates t s,
      (decide (iss.issue_type = .duplicate_key
        ∧ iss.source_file = s ∧ iss.row_number = some (i + 1))) = true ↔
      (decide (iss.row_number = some (i + 1))) = true := by
    intro iss hiss
    have ht := check_duplicates_types t s iss hiss
    have hs := (check_duplicates_fields t s iss hiss).1
    simp [ht, hs]
  rw [List.countP_congr hcongr]
  simp only [check_duplicates]
  rw [countP_rowNumber_enum_filter_map t _ _ (fun p => rfl) i, hir]
  simp

theorem keyCount_filterDuplicates (t : Table) (k : Cell × Cell) :
    keyCount (filterDuplicates t) k =
      (if keyCount t k < 2 then keyCount t k else 0) := by
  unfold filterDuplicates
  split
  · rename_i hnil
    have hlt : keyCount t k < 2 := by
      by_contra hge
      push_neg at hge
      have hpos : 0 < t.countP (fun r => decide (rowKey r = k)) := by
        unfold keyCount at hge
        omega
      obtain ⟨r, hr, hrk⟩ := List.countP_pos_iff.mp hpos
      have hmem : r ∈ find_duplicates t := by
        apply List.mem_filter.mpr
        refine ⟨hr, ?_⟩
        simp only [decide_eq_true_eq] at hrk ⊢
        rw [hrk]
        exact hge
      rw [List.isEmpty_iff] at hnil
      rw [hnil] at hmem
      simp at hmem
    rw [if_pos hlt]
  · by_cases hlt : keyCount t k < 2
    · rw [if_pos hlt]
      unfold keyCount at hlt ⊢
      rw [List.countP_filter]
      apply List.countP_congr
      intro r _
      simp only [Bool.and_eq_true, decide_eq_true_eq]
      constructor
      · rintro ⟨hk, _⟩
        exact hk
      · intro hk
        refine ⟨hk, ?_⟩
        rw [hk]
        simpa using hlt
    · rw [if_neg hlt]
      unfold keyCount at hlt ⊢
      rw [List.countP_filter]
      apply List.countP_eq_zero.mpr
      intro r _
      simp only [Bool.and_eq_true, decide_eq_true_eq, not_and]
      intro hk
      rw [hk]
      intro hcontra
      exact hlt (by simpa using hcontra)

theorem keyCount_filterDuplicates_le_one (t : Table) :
    ∀ k, keyCount (filterDuplicates t) k ≤ 1 := by
  intro k
  rw [keyCount_filterDuplicates]
  split <;> omega

theorem lookupKey_eq_none_of_count_zero (t : Table) (k : Cell × Cell)
    (h : keyCount t k = 0) : lookupKey t k = none := by
  apply List.find?_eq_none.mpr
  intro r hr
  unfold keyCount at h
  have := List.countP_eq_zero.mp h r hr
  simpa using this

theorem filterDuplicates_subset (t : Table) :
    ∀ r ∈ filterDuplicates t, r ∈ t := by
  intro r hr
  unfold filterDuplicates at hr
  split at hr
  · exact hr
  · exact List.mem_of_mem_filter hr

theorem keyCount_norm_ge (t : Table) (k : Cell × Cell) :
    keyCount t k ≤
      keyCount (normalize_dataframe t).1
        (Cell.str (normalize_sku k.1), Cell.str (normalize_location k.2)) := by
  rw [normalize_dataframe_fst]
  unfold keyCount
  rw [List.countP_map]
  apply List.countP_mono_left
  intro r _ hr
  simp only [decide_eq_true_eq] at hr
  simp only [Function.comp_apply, rowKey, decide_eq_true_eq]
  rw [show r.sku = k.1 from congrArg Prod.fst hr,
    show r.location = k.2 from congrArg Prod.snd hr]

/-! ### Claim C2 — duplicate keys: exclusion and reporting -/

/-- Claim C2 counterexample: table 1 holds the key `(SKU-001, A)` twice and
table 2 holds it once; the pipeline still emits one `ReconciliationResult`
for that key (status `added`, taken from table 2 alone), refuting
"no ReconciliationResult exists for such a key". -/
theorem C2_counterexample :
    pipelineResults
      [{ sku := .str (strOf "SKU-001"), name := .str (strOf "Widget"),
         quantity := .int 1, location := .str (strOf "A"),
         last_counted := .str (strOf "2024-01-01") },
       { sku := .str (strOf "SKU-001"), name := .str (strOf "Widget"),
         quantity := .int 2, location := .str (strOf "A"),
         last_counted := .str (strOf "2024-01-01") }]
      [{ sku := .str (strOf "SKU-001"), name := .str (strOf "Widget"),
         quantity := .int 5, location := .str (strOf "A"),
         last_counted := .str (strOf "2024-01-01") }] =
    .ok [{ sku := .str (strOf "SKU-001"), location := .str (strOf "A"),
           status := .added, old_quantity := none, new_quantity := some 5,
           quantity_delta := none, old_name := none,
           new_name := some (.str (strOf "Widget")) }]
    ∧ 2 ≤ keyCount
        (normalize_dataframe
          [{ sku := .str (strOf "SKU-001"), name := .str (strOf "Widget"),
             quantity := .int 1, location := .str (strOf "A"),
             last_counted := .str (strOf "2024-01-01") },
           { sku := .str (strOf "SKU-001"), name := .str (strOf "Widget"),
             quantity := .int 2, location := .str (strOf "A"),
             last_counted := .str (strOf "2024-01-01") }]).1
        (.str (strOf "SKU-001"), .str (strOf "A")) := by
  constructor
  · decide
  · decide

/-- Claim C2, amended: for every table, a row whose composite key is
duplicated within that raw table always yields exactly one `duplicate_key`
issue (error severity) attributed to that snapshot, and all its
occurrences are excluded from that table's side of the reconciliation: any
result carrying the row's normalized key is built from the other table
alone — `added` with old fields absent for a snapshot-1 duplicate,
`removed` with new fields absent for a snapshot-2 duplicate — and when the
other cleaned table lacks the key no result exists at all.  (A result may
therefore still exist for a duplicated key — exactly when the other table
contributes it uniquely.) -/
theorem C2_duplicate_exclusion (t1 t2 : Table) (m1 m2 mi1 mi2 : List Str)
    (issues : List DataQualityIssue)
    (hissues : run_all_checks t1 t2 m1 m2 mi1 mi2 = .ok issues)
    (rs : List ReconciliationResult)
    (hrs : pipelineResults t1 t2 = .ok rs) :
    (∀ iss ∈ issues, iss.issue_type = .duplicate_key → iss.severity = .error)
    ∧ (∀ (i : Nat) (r : Row), t1[i]? = some r → 2 ≤ keyCount t1 (rowKey r) →
        issues.countP (fun iss => decide (iss.issue_type = .duplicate_key
          ∧ iss.source_file = .snapshot_1 ∧ iss.row_number = some (i + 1))) = 1
        ∧ (∀ res ∈ rs,
            (res.sku, res.location) =
              (Cell.str (normalize_sku r.sku),
               Cell.str (normalize_location r.location)) →
            res.status = .added ∧ res.old_quantity = none ∧ res.old_name = none)
        ∧ (lookupKey (filterDuplicates (normalize_dataframe t2).1)
              (Cell.str (normalize_sku r.sku),
               Cell.str (normalize_location r.location)) = none →
            rs.filter (fun res => decide ((res.sku, res.location) =
              (Cell.str (normalize_sku r.sku),
               Cell.str (normalize_location r.location)))) = []))
    ∧ (∀ (j : Nat) (r : Row), t2[j]? = some r → 2 ≤ keyCount t2 (rowKey r) →
        issues.countP (fun iss => decide (iss.issue_type = .duplicate_key
          ∧ iss.source_file = .snapshot_2 ∧ iss.row_number = some (j + 1))) = 1
        ∧ (∀ res ∈ rs,
            (res.sku, res.location) =
              (Cell.str (normalize_sku r.sku),
               Cell.str (normalize_location r.location)) →
            res.status = .removed ∧ res.new_quantity = none ∧ res.new_name = none)
        ∧ (lookupKey (filterDuplicates (normalize_dataframe t1).1)
              (Cell.str (normalize_sku r.sku),
               Cell.str (normalize_location r.location)) = none →
            rs.filter (fun res => decide ((res.sku, res.location) =
              (Cell.str (normalize_sku r.sku),
               Cell.str (normalize_location r.location)))) = [])) := by
  obtain ⟨per1, per2, hper1, hper2, rfl⟩ :=
    run_all_checks_ok_decomp t1 t2 m1 m2 mi1 mi2 issues hissues
  have hrs' : reconcile (filterDuplicates (normalize_dataframe t1).1)
      (filterDuplicates (normalize_dataframe t2).1) = .ok rs := hrs
  have hq1' : ∀ x ∈ filterDuplicates (normalize_dataframe t1).1,
      (x.quantity).isInt = true := by
    intro x hx
    obtain ⟨z, hz⟩ := normalize_dataframe_quantity_int t1 x
      (filterDuplicates_subset _ x hx)
    rw [hz]
    rfl
  have hq2' : ∀ x ∈ filterDuplicates (normalize_dataframe t2).1,
      (x.quantity).isInt = true := by
    intro x hx
    obtain ⟨z, hz⟩ := normalize_dataframe_quantity_int t2 x
      (filterDuplicates_subset _ x hx)
    rw [hz]
    rfl
  refine ⟨?_, ?_, ?_⟩
  · intro iss hiss ht
    simp only [List.mem_append] at hiss
    rcases hiss with ((((((((h1 | h2) | h3) | h4) | h5) | h6) | h7) | h8) | h9)
    · exact absurd ht (by rw [check_empty_file_types t1 .snapshot_1 iss h1]; decide)
    · exact absurd ht (by rw [check_empty_file_types t2 .snapshot_2 iss h2]; decide)
    · exact absurd ht (by rw [check_missing_columns_types mi1 .snapshot_1 iss h3]; decide)
    · exact absurd ht (by rw [check_missing_columns_types mi2 .snapshot_2 iss h4]; decide)
    · exact absurd ht (by rw [check_column_names_types m1 .snapshot_1 iss h5]; decide)
    · exact absurd ht (by rw [check_column_names_types m2 .snapshot_2 iss h6]; decide)
    · exact (per_snapshot_dup_fields t1 .snapshot_1 per1 hper1 iss h7 ht).2
    · exact (per_snapshot_dup_fields t2 .snapshot_2 per2 hper2 iss h8 ht).2
    · split at h9
      · rcases List.mem_append.mp h9 with h10 | h10
        · exact absurd ht (by rw [check_name_drift_types t1 t2 iss h10]; decide)
        · exact absurd ht (by rw [check_date_regression_types t1 t2 iss h10]; decide)
      · simp at h9
  · intro i r hir hdup
    have hne1 : t1.isEmpty = false := by
      cases t1 with
      | nil => simp at hir
      | cons a l => rfl
    rcases per_snapshot_checks_ok_decomp t1 .snapshot_1 per1 hper1 with
      ⟨hemp, _⟩ | ⟨_, neg, hneg, rfl⟩
    · rw [hemp] at hne1
      cases hne1
    have hdupnorm : 2 ≤ keyCount (normalize_dataframe t1).1
        (Cell.str (normalize_sku r.sku), Cell.str (normalize_location r.location)) :=
      le_trans hdup (keyCount_norm_ge t1 (rowKey r))
    have hclean1 : keyCount (filterDuplicates (normalize_dataframe t1).1)
        (Cell.str (normalize_sku r.sku),
         Cell.str (normalize_location r.location)) = 0 := by
      rw [keyCount_filterDuplicates, if_neg (by omega)]
    have hlk1 : lookupKey (filterDuplicates (normalize_dataframe t1).1)
        (Cell.str (normalize_sku r.sku), Cell.str (normalize_location r.location)) =
        none := lookupKey_eq_none_of_count_zero _ _ hclean1
    have hchar := reconcile_filter_key
      (filterDuplicates (normalize_dataframe t1).1)
      (filterDuplicates (normalize_dataframe t2).1)
      (keyCount_filterDuplicates_le_one _) (keyCount_filterDuplicates_le_one _)
      hq1' hq2' rs hrs'
      (Cell.str (normalize_sku r.sku), Cell.str (normalize_location r.location))
    rw [hlk1] at hchar
    refine ⟨?_, ?_, ?_⟩
    · simp only [List.countP_append]
      rw [countP_dup_zero_of_types (fun iss h => by
          rw [check_empty_file_types t1 .snapshot_1 iss h]; decide),
        countP_dup_zero_of_types (fun iss h => by
          rw [check_empty_file_types t2 .snapshot_2 iss h]; decide),
        countP_dup_zero_of_types (fun iss h => by
          rw [check_missing_columns_types mi1 .snapshot_1 iss h]; decide),
        countP_dup_zero_of_types (fun iss h => by
          rw [check_missing_columns_types mi2 .snapshot_2 iss h]; decide),
        countP_dup_zero_of_types (fun iss h => by
          rw [check_column_names_types m1 .snapshot_1 iss h]; decide),
        countP_dup_zero_of_types (fun iss h => by
          rw [check_column_names_types m2 .snapshot_2 iss h]; decide),
        countP_dup_check_duplicates t1 .snapshot_1 i r hir,
        countP_dup_zero_of_types (fun iss h => by
          rw [check_negative_quantities_types t1 .snapshot_1 neg hneg iss h]; decide),
        countP_dup_zero_of_types (fun iss h => by
          rw [check_sku_format_types t1 .snapshot_1 iss h]; decide),
        countP_dup_zero_of_types (fun iss h => by
          rw [check_whitespace_types t1 .snapshot_1 iss h]; decide),
        countP_dup_zero_of_types (fun iss h => by
          rw [check_date_format_types t1 .snapshot_1 iss h]; decide),
        countP_dup_zero_of_src_ne (by decide)
          (fun iss hiss ht =>
            (per_snapshot_dup_fields t2 .snapshot_2 per2 hper2 iss hiss ht).1),
        countP_dup_zero_of_types (fun iss h => by
          split at h
          · rcases List.mem_append.mp h with h10 | h10
            · rw [check_name_drift_types t1 t2 iss h10]; decide
            · rw [check_date_regression_types t1 t2 iss h10]; decide
          · simp at h),
        if_pos hdup]
    · intro res hres hkey
      have hmem : res ∈ rs.filter (fun res => decide ((res.sku, res.location) =
          (Cell.str (normalize_sku r.sku),
           Cell.str (normalize_location r.location)))) :=
        List.mem_filter.mpr ⟨hres, by simp [hkey]⟩
      rw [hchar] at hmem
      cases hlk2 : lookupKey (filterDuplicates (normalize_dataframe t2).1)
          (Cell.str (normalize_sku r.sku),
           Cell.str (normalize_location r.location)) with
      | none =>
        rw [hlk2] at hmem
        simp at hmem
      | some r2 =>
        rw [hlk2] at hmem
        simp only [List.mem_singleton] at hmem
        subst hmem
        exact ⟨rfl, rfl, rfl⟩
    · intro hlk2
      rw [hchar, hlk2]
  · intro j r hjr hdup
    have hne2 : t2.isEmpty = false := by
      cases t2 with
      | nil => simp at hjr
      | cons a l => rfl
    rcases per_snapshot_checks_ok_decomp t2 .snapshot_2 per2 hper2 with
      ⟨hemp, _⟩ | ⟨_, neg, hneg, rfl⟩
    · rw [hemp] at hne2
      cases hne2
    have hdupnorm : 2 ≤ keyCount (normalize_dataframe t2).1
        (Cell.str (normalize_sku r.sku), Cell.str (normalize_location r.location)) :=
      le_trans hdup (keyCount_norm_ge t2 (rowKey r))
    have hclean2 : keyCount (filterDuplicates (normalize_dataframe t2).1)
        (Cell.str (normalize_sku r.sku),
         Cell.str (normalize_location r.location)) = 0 := by
      rw [keyCount_filterDuplicates, if_neg (by omega)]
    have hlk2 : lookupKey (filterDuplicates (normalize_dataframe t2).1)
        (Cell.str (normalize_sku r.sku), Cell.str (normalize_location r.location)) =
        none := lookupKey_eq_none_of_count_zero _ _ hclean2
    have hchar := reconcile_filter_key
      (filterDuplicates (normalize_dataframe t1).1)
      (filterDuplicates (normalize_dataframe t2).1)
      (keyCount_filterDuplicates_le_one _) (keyCount_filterDuplicates_le_one _)
      hq1' hq2' rs hrs'
      (Cell.str (normalize_sku r.sku), Cell.str (normalize_location r.location))
    rw [hlk2] at hchar
    refine ⟨?_, ?_, ?_⟩
    · simp only [List.countP_append]
      rw [countP_dup_zero_of_types (fun iss h => by
          rw [check_empty_file_types t1 .snapshot_1 iss h]; decide),
        countP_dup_zero_of_types (fun iss h => by
          rw [check_empty_file_types t2 .snapshot_2 iss h]; decide),
        countP_dup_zero_of_types (fun iss h => by
          rw [check_missing_columns_types mi1 .snapshot_1 iss h]; decide),
        countP_dup_zero_of_types (fun iss h => by
          rw [check_missing_columns_types mi2 .snapshot_2 iss h]; decide),
        countP_dup_zero_of_types (fun iss h => by
          rw [check_column_names_types m1 .snapshot_1 iss h]; decide),
        countP_dup_zero_of_types (fun iss h => by
          rw [check_column_names_types m2 .snapshot_2 iss h]; decide),
        countP_dup_zero_of_src_ne (by decide)
          (fun iss hiss ht =>
            (per_snapshot_dup_fields t1 .snapshot_1 per1 hper1 iss hiss ht).1),
        countP_dup_check_duplicates t2 .snapshot_2 j r hjr,
        countP_dup_zero_of_types (fun iss h => by
          rw [check_negative_quantities_types t2 .snapshot_2 neg hneg iss h]; decide),
        countP_dup_zero_of_types (fun iss h => by
          rw [check_sku_format_types t2 .snapshot_2 iss h]; decide),
        countP_dup_zero_of_types (fun iss h => by
          rw [check_whitespace_types t2 .snapshot_2 iss h]; decide),
        countP_dup_zero_of_types (fun iss h => by
          rw [check_date_format_types t2 .snapshot_2 iss h]; decide),
        countP_dup_zero_of_types (fun iss h => by
          split at h
          · rcases List.mem_append.mp h with h10 | h10
            · rw [check_name_drift_types t1 t2 iss h10]; decide
            · rw [check_date_regression_types t1 t2 iss h10]; decide
          · simp at h),
        if_pos hdup]
    · intro res hres hkey
      have hmem : res ∈ rs.filter (fun res => decide ((res.sku, res.location) =
          (Cell.str (normalize_sku r.sku),
           Cell.str (normalize_location r.location)))) :=
        List.mem_filter.mpr ⟨hres, by simp [hkey]⟩
      rw [hchar] at hmem
      cases hlk1 : lookupKey (filterDuplicates (normalize_dataframe t1).1)
          (Cell.str (normalize_sku r.sku),
           Cell.str (normalize_location r.location)) with
      | none =>
        rw [hlk1] at hmem
        simp at hmem
      | some r1 =>
        rw [hlk1] at hmem
        simp only [List.mem_singleton] at hmem
        subst hmem
        exact ⟨rfl, rfl, rfl⟩
    · intro hlk1
      rw [hchar, hlk1]

/-- Witness for claim C2: the duplicated first row of snapshot 1 in the
concrete run is reported by exactly one `duplicate_key` issue. -/
theorem C2_duplicate_exclusion_witness :
    ([{ issue_type := .duplicate_key, severity := .error, source_file := .snapshot_1,
        row_number := some 1, field := some (strOf "sku,location"),
        original_value := some (strOf "SKU-001@A"), normalized_value := none,
        description := strOf "Duplicate key SKU-001@A at row 1" },
      { issue_type := .duplicate_key, severity := .error, source_file := .snapshot_1,
        row_number := some 2, field := some (strOf "sku,location"),
        original_value := some (strOf "SKU-001@A"), normalized_value := none,
        description := strOf "Duplicate key SKU-001@A at row 2" }] :
      List DataQualityIssue).countP
      (fun iss => decide (iss.issue_type = .duplicate_key
        ∧ iss.source_file = .snapshot_1 ∧ iss.row_number = some (0 + 1))) = 1 :=
  ((C2_duplicate_exclusion
    [{ sku := .str (strOf "SKU-001"), name := .str (strOf "Widget"),
       quantity := .int 1, location := .str (strOf "A"),
       last_counted := .str (strOf "2024-01-01") },
     { sku := .str (strOf "SKU-001"), name := .str (strOf "Widget"),
       quantity := .int 2, location := .str (strOf "A"),
       last_counted := .str (strOf "2024-01-01") }]
    [{ sku := .str (strOf "SKU-001"), name := .str (strOf "Widget"),
       quantity := .int 5, location := .str (strOf "A"),
       last_counted := .str (strOf "2024-01-01") }]
    [] [] [] []
    [{ issue_type := .duplicate_key, severity := .error, source_file := .snapshot_1,
       row_number := some 1, field := some (strOf "sku,location"),
       original_value := some (strOf "SKU-001@A"), normalized_value := none,
       description := strOf "Duplicate key SKU-001@A at row 1" },
     { issue_type := .duplicate_key, severity := .error, source_file := .snapshot_1,
       row_number := some 2, field := some (strOf "sku,location"),
       original_value := some (strOf "SKU-001@A"), normalized_value := none,
       description := strOf "Duplicate key SKU-001@A at row 2" }]
    (by decide)
    [{ sku := .str (strOf "SKU-001"), location := .str (strOf "A"),
       status := .added, old_quantity := none, new_quantity := some 5,
       quantity_delta := none, old_name := none,
       new_name := some (.str (strOf "Widget")) }]
    (by decide)).2.1 0
    { sku := .str (strOf "SKU-001"), name := .str (strOf "Widget"),
      quantity := .int 1, location := .str (strOf "A"),
      last_counted := .str (strOf "2024-01-01") }
    rfl (by decide)).1

/-! ### Claim C6 — deterministic, sorted report output -/

/-- Claim C6: two runs of the reporter over identical inputs with an
identical injected timestamp produce byte-identical serialized output, and
in the report each status group is sorted ascending by `(sku, location)`
while the quality issues are sorted by
`(severity, issue_type, source_file, row_number or 0)`. -/
theorem C6_deterministic_sorted_report
    (results results' : List ReconciliationResult)
    (issues issues' : List DataQualityIssue)
    (p1 p1' p2 p2' : Str) (a a' b b' c c' d d' : Nat)
    (gAt gAt' : Option Str) (now now' : Str)
    (h : (results, issues, p1, p2, a, b, c, d, gAt, now) =
         (results', issues', p1', p2', a', b', c', d', gAt', now')) :
    write_json_bytes (build_report results issues p1 p2 a b c d gAt now) =
      write_json_bytes (build_report results' issues' p1' p2' a' b' c' d' gAt' now')
    ∧ List.Sorted resultSortRel
        (build_report results issues p1 p2 a b c d gAt now).results.unchanged
    ∧ List.Sorted resultSortRel
        (build_report results issues p1 p2 a b c d gAt now).results.quantity_changed
    ∧ List.Sorted resultSortRel
        (build_report results issues p1 p2 a b c d gAt now).results.added
    ∧ List.Sorted resultSortRel
        (build_report results issues p1 p2 a b c d gAt now).results.removed
    ∧ List.Sorted issueSortRel
        (build_report results issues p1 p2 a b c d gAt now).quality_issues := by
  cases h
  refine ⟨rfl, ?_, ?_, ?_, ?_, ?_⟩
  · exact List.sorted_insertionSort resultSortRel _
  · exact List.sorted_insertionSort resultSortRel _
  · exact List.sorted_insertionSort resultSortRel _
  · exact List.sorted_insertionSort resultSortRel _
  · exact List.sorted_insertionSort issueSortRel _

/-- Witness for claim C6 at a concrete report. -/
theorem C6_deterministic_sorted_report_witness :
    write_json_bytes (build_report [] [] [] [] 0 0 0 0 none []) =
      write_json_bytes (build_report [] [] [] [] 0 0 0 0 none []) :=
  (C6_deterministic_sorted_report [] [] [] [] [] [] [] [] 0 0 0 0 0 0 0 0
    none none [] [] rfl).1

/-! ### Claim C10 — plain-string severity order -/

theorem issueSortRel_sevRank {x y : DataQualityIssue} (h : issueSortRel x y) :
    sevRank x.severity ≤ sevRank y.severity := by
  obtain ⟨tx, sx, fx, rx, gx, ox, nx, dx⟩ := x
  obtain ⟨ty, sy, fy, ry, gy, oy, ny, dy⟩ := y
  unfold issueSortRel issueSortKey at h
  rw [Prod.Lex.le_iff] at h
  dsimp only at h ⊢
  rcases h with hlt | ⟨heq, _⟩
  · cases sx <;> cases sy <;>
      first
        | decide
        | exact absurd hlt (by decide)
  · cases sx <;> cases sy <;>
      first
        | decide
        | exact absurd heq (by decide)

/-- Claim C10: the reporter compares severities as plain strings, so the
sorted `quality_issues` list ranks `error` before `info` before `warning`
— info-severity issues sort before warning-severity ones; concretely, a
warning listed before an info in the input comes out after it. -/
theorem C10_severity_string_order :
    (∀ (results : List ReconciliationResult) (issues : List DataQualityIssue)
       (p1 p2 : Str) (a b c d : Nat) (gAt : Option Str) (now : Str),
       List.Sorted
         (fun x y : DataQualityIssue => sevRank x.severity ≤ sevRank y.severity)
         (build_report results issues p1 p2 a b c d gAt now).quality_issues)
    ∧ (build_report []
        [{ issue_type := .whitespace_trimmed, severity := .warning,
           source_file := .snapshot_1, row_number := some 1, field := none,
           original_value := none, normalized_value := none,
           description := strOf "w" },
         { issue_type := .column_name_mismatch, severity := .info,
           source_file := .snapshot_1, row_number := none, field := none,
           original_value := none, normalized_value := none,
           description := strOf "i" }] [] [] 0 0 0 0 none []).quality_issues =
      [{ issue_type := .column_name_mismatch, severity := .info,
         source_file := .snapshot_1, row_number := none, field := none,
         original_value := none, normalized_value := none,
         description := strOf "i" },
       { issue_type := .whitespace_trimmed, severity := .warning,
         source_file := .snapshot_1, row_number := some 1, field := none,
         original_value := none, normalized_value := none,
         description := strOf "w" }] := by
  constructor
  · intro results issues p1 p2 a b c d gAt now
    exact (List.sorted_insertionSort issueSortRel issues).imp
      (fun hxy => issueSortRel_sevRank hxy)
  · decide

end Inventory




